import Mathlib

/-!
Verification of the vx-track time-tracking extractor and Teamwork poster.

This file gives a shallow embedding, in Lean 4, of the pure computational
core of the repository (files streamlit_app.py, teamwork_client.py,
configuracao_teamwork.py) and proves properties about it.

Python strings are modelled as Lean String values; Python list/dict values
that flow through the embedded functions are modelled with explicit Lean
inductive types.  Network calls are modelled by passing a response oracle
explicitly.  Machine floats appear in the source only in
two places relevant here (the round() call of _hms_to_h_m and the .2f
formatting of _hms_to_decimal); both are modelled by exact integer
arithmetic that coincides with the IEEE-double computation on the 1-2 digit
hour / 2 digit minute / 2 digit second inputs the program feeds them (a
double represents those values with error far below every rounding
boundary, except exact ties, which are handled explicitly).
-/

set_option maxRecDepth 20000

namespace VxTrack

/-! ## Python string primitives

Helpers mirroring the Python `str` methods used by the source:
`strip`, `replace` (single char), `split` (single char separator),
`zfill`, `lower`, substring containment, `lstrip('0')`.
-/

/-- Python default-whitespace test (ASCII part; the source never feeds
non-ASCII whitespace to strip()). -/
def pyIsSpace (c : Char) : Bool :=
  c = ' ' || c = '\t' || c = '\n' || c = '\r' || c = '\x0b' || c = '\x0c'

/-- Python str.strip() on a char list. -/
def pyStripList (l : List Char) : List Char :=
  ((l.dropWhile pyIsSpace).reverse.dropWhile pyIsSpace).reverse

/-- Python str.strip(). -/
def pyStrip (s : String) : String := String.mk (pyStripList s.data)

/-- Python str.replace(a, b) for single characters. -/
def pyReplaceChar (a b : Char) (s : String) : String :=
  String.mk (s.data.map fun c => if c = a then b else c)

/-- Python str.split(sep) for a single-char separator, on char lists.
"".split(c) = [""], "a//b".split("/") = ["a","","b"]. -/
def pySplitChar (sep : Char) : List Char → List (List Char)
  | [] => [[]]
  | c :: cs =>
      let r := pySplitChar sep cs
      if c = sep then [] :: r
      else
        match r with
        | [] => [[c]]
        | h :: t => (c :: h) :: t

/-- Python str.zfill(w): left-pad with zeros to width w, keeping a
leading sign character in place. -/
def pyZfill (w : Nat) (s : String) : String :=
  let l := s.data
  if w ≤ l.length then s
  else
    match l with
    | [] => String.mk (List.replicate w '0')
    | c :: rest =>
        if c = '+' || c = '-' then
          String.mk (c :: (List.replicate (w - l.length) '0' ++ rest))
        else
          String.mk (List.replicate (w - l.length) '0' ++ l)

/-- Python str.lower(), covering ASCII plus the accented capitals that can
occur in the source documents. -/
def pyLowerChar (c : Char) : Char :=
  if c = 'Ã' then 'ã' else if c = 'Á' then 'á' else if c = 'À' then 'à'
  else if c = 'Â' then 'â' else if c = 'É' then 'é' else if c = 'Ê' then 'ê'
  else if c = 'Í' then 'í' else if c = 'Ó' then 'ó' else if c = 'Ô' then 'ô'
  else if c = 'Õ' then 'õ' else if c = 'Ú' then 'ú' else if c = 'Ü' then 'ü'
  else if c = 'Ç' then 'ç' else c.toLower

/-- Python str.lower(). -/
def pyLower (s : String) : String := String.mk (s.data.map pyLowerChar)

/-- Python substring containment (`needle in haystack`), on char lists. -/
def listContains (needle : List Char) : List Char → Bool
  | [] => needle.isEmpty
  | c :: cs => needle.isPrefixOf (c :: cs) || listContains needle cs

/-- Python `needle in haystack` for strings. -/
def pyContains (haystack needle : String) : Bool :=
  listContains needle.data haystack.data

/-- Python str.lstrip('0'). -/
def pyLstripZeros (s : String) : String :=
  String.mk (s.data.dropWhile fun c => c = '0')

/-- Python str.isdigit() (ASCII digits; the ids fed to it come from
regex captures of ASCII digits). -/
def pyIsDigit (s : String) : Bool :=
  !s.data.isEmpty && s.data.all fun c => c.isDigit

/-- Value of a digit string (the int() constructor on the all-digit
strings produced by the extraction regexes). -/
def digitsToNat (l : List Char) : Nat :=
  l.foldl (fun acc c => acc * 10 + (c.toNat - 48)) 0

/-- Python int(s) for optionally-signless digit strings, as used on
regex captures; other shapes (which int() would reject with ValueError)
yield none. -/
def pyIntOfString (s : String) : Option Nat :=
  if pyIsDigit s then some (digitsToNat s.data) else none

/-! ## normalizar_data (streamlit_app.py lines 560-577) -/

/-- `normalizar_data`: normalize a date string to dd/mm/yyyy.
Mirrors streamlit_app.py lines 560-577: strip, replace the separators
'-' and '.' by '/', split on '/'; with exactly three parts, expand a
two-digit year by prefixing "20" and zero-pad day and month to width 2;
otherwise return the input unchanged.  (The Python body can raise no
exception on a str input, so the try/except is dead and the translation
is direct.) -/
def normalizar_data (data_str : String) : String :=
  let data_clean := pyReplaceChar '.' '/' (pyReplaceChar '-' '/' (pyStrip data_str))
  match pySplitChar '/' data_clean.data with
  | [dia, mes, ano] =>
      let ano2 := if ano.length = 2 then '2' :: '0' :: ano else ano
      pyZfill 2 (String.mk dia) ++ "/" ++ pyZfill 2 (String.mk mes) ++ "/" ++ String.mk ano2
  | _ => data_str

/-! ## A small backtracking regex engine

The source drives its extraction with Python `re` patterns.  We embed each
pattern as a value of the `RE` syntax below and execute it with a
backtracking matcher that follows Python semantics: leftmost match,
alternation tried left to right, greedy repetition prefers longer and lazy
repetition prefers shorter, numbered groups capture the positions of their
last successful match.  The matcher is written in continuation-passing
style with a fuel argument bounding the nesting depth; the wrappers pass
fuel large enough that it is never exhausted on the inputs considered.
-/

/-- Regex syntax: character classes, sequencing, alternation, counted
(possibly lazy) repetition, capture groups, word boundary and end anchor. -/
inductive RE where
  | eps
  | cls (p : Char → Bool)
  | seq (a b : RE)
  | alt (a b : RE)
  | rep (r : RE) (lo : Nat) (hi : Option Nat) (lazy : Bool)
  | grp (idx : Nat) (r : RE)
  | wb
  | eol

/-- Word character for Python \b (ASCII word chars plus the accented
letters and ordinal signs occurring in the source patterns/documents). -/
def isWordChar (c : Char) : Bool :=
  c.isAlphanum || c = '_' ||
  [ 'ã', 'õ', 'ç', 'í', 'é', 'á', 'ó', 'ú', 'â', 'ê', 'ô', 'à', 'ü',
    'Ã', 'Õ', 'Ç', 'Í', 'É', 'Á', 'Ó', 'Ú', 'Â', 'Ê', 'Ô', 'À', 'Ü',
    'º', 'ª' ].contains c

/-- Python \b test at a position. -/
def isWordBoundary (cs : List Char) (pos : Nat) : Bool :=
  let before :=
    match pos with
    | 0 => false
    | p + 1 => match cs.get? p with | some c => isWordChar c | none => false
  let after := match cs.get? pos with | some c => isWordChar c | none => false
  before != after

/-- Backtracking matcher.  `reM cs fuel r pos caps k` matches `r` against
`cs` starting at `pos` with accumulated group captures `caps`
(group, start, end — most recent first) and calls the continuation on
success, backtracking on `none`.  An unconsuming repetition round is cut
(Python likewise stops empty repeats). -/
def reM {α : Type} (cs : List Char) :
    Nat → RE → Nat → List (Nat × Nat × Nat) →
    (Nat → List (Nat × Nat × Nat) → Option α) → Option α
  | 0, _, _, _, _ => none
  | fuel + 1, r, pos, caps, k =>
    match r with
    | .eps => k pos caps
    | .cls p =>
        match cs.get? pos with
        | some c => if p c then k (pos + 1) caps else none
        | none => none
    | .seq a b => reM cs fuel a pos caps (fun p2 c2 => reM cs fuel b p2 c2 k)
    | .alt a b =>
        (reM cs fuel a pos caps k).orElse (fun _ => reM cs fuel b pos caps k)
    | .grp i a => reM cs fuel a pos caps (fun p2 c2 => k p2 ((i, pos, p2) :: c2))
    | .wb => if isWordBoundary cs pos then k pos caps else none
    | .eol => if pos = cs.length then k pos caps else none
    | .rep a lo hi lz =>
        match lo with
        | lo' + 1 =>
            reM cs fuel a pos caps (fun p2 c2 =>
              reM cs fuel (.rep a lo' (hi.map (· - 1)) lz) p2 c2 k)
        | 0 =>
            match hi with
            | some 0 => k pos caps
            | _ =>
                let more := fun (_ : Unit) =>
                  reM cs fuel a pos caps (fun p2 c2 =>
                    if p2 = pos then none
                    else reM cs fuel (.rep a 0 (hi.map (· - 1)) lz) p2 c2 k)
                if lz then (k pos caps).orElse more
                else (more ()).orElse (fun _ => k pos caps)

/-- A match: overall span plus group captures. -/
structure RMatch where
  start : Nat
  stop : Nat
  caps : List (Nat × Nat × Nat)
  deriving Repr, DecidableEq

/-- Depth budget that the matcher cannot exhaust on a text of the given
length with the (fixed, small) patterns of this file. -/
def reFuel (cs : List Char) : Nat := (cs.length + 4) * 128

/-- Try to match `r` anchored at position `pos`. -/
def reMatchFrom (r : RE) (cs : List Char) (pos : Nat) : Option RMatch :=
  match reM cs (reFuel cs) r pos [] (fun p c => some (p, c)) with
  | some (stop, caps) => some ⟨pos, stop, caps⟩
  | none => none

/-- First match at or after a position, fuel-driven (structural recursion,
so that the kernel can evaluate it). -/
def reSearchFromAux (r : RE) (cs : List Char) : Nat → Nat → Option RMatch
  | 0, _ => none
  | f + 1, pos =>
      if cs.length < pos then none
      else
        match reMatchFrom r cs pos with
        | some m => some m
        | none => reSearchFromAux r cs f (pos + 1)

/-- First match at or after `pos` (Python re.search scanning order). -/
def reSearchFrom (r : RE) (cs : List Char) (pos : Nat) : Option RMatch :=
  reSearchFromAux r cs (cs.length + 1 - pos) pos

/-- Python re.search. -/
def reSearch (r : RE) (s : String) : Option RMatch := reSearchFrom r s.data 0

/-- Python bool(re.search(...)). -/
def reTest (r : RE) (s : String) : Bool := (reSearch r s).isSome

/-- Python re.match (anchored at the string start). -/
def reMatchAt0 (r : RE) (s : String) : Option RMatch := reMatchFrom r s.data 0

/-- Python bool(re.match(...)). -/
def reTestAt0 (r : RE) (s : String) : Bool := (reMatchAt0 r s).isSome

/-- m.group(i): text of the most recent capture of group i (our patterns
always bind the groups they read, so the missing-group default is moot). -/
def groupStr (cs : List Char) (m : RMatch) (i : Nat) : String :=
  match m.caps.find? (fun t => t.1 = i) with
  | some (_, st, en) => String.mk ((cs.drop st).take (en - st))
  | none => ""

/-- The whole matched text. -/
def matchedStr (cs : List Char) (m : RMatch) : String :=
  String.mk ((cs.drop m.start).take (m.stop - m.start))

/-- Python re.findall for a groupless pattern: non-overlapping matches in
scan order, advancing past each match (by one position on an empty match). -/
def reFindAllAux (r : RE) (cs : List Char) : Nat → Nat → List String
  | 0, _ => []
  | f + 1, pos =>
      match reSearchFrom r cs pos with
      | none => []
      | some m =>
          matchedStr cs m ::
            reFindAllAux r cs f (if m.stop ≤ m.start then m.start + 1 else m.stop)

/-- Python re.findall (groupless pattern). -/
def reFindAll (r : RE) (s : String) : List String :=
  reFindAllAux r s.data (s.data.length + 1) 0

/-- Python re.sub(pattern, '', s) for a pattern anchored with ^ (at most
one match, at position 0): drop the matched prefix. -/
def reSubAnchored (r : RE) (s : String) : String :=
  match reMatchAt0 r s with
  | some m => String.mk (s.data.drop m.stop)
  | none => s

/-! Pattern-building helpers. -/

/-- Literal character. -/
def reChr (c : Char) : RE := .cls (fun x => x = c)

/-- Literal character under IGNORECASE. -/
def reChrCI (c : Char) : RE := .cls (fun x => pyLowerChar x = pyLowerChar c)

/-- Character set. -/
def reOneOf (l : List Char) : RE := .cls (fun x => l.contains x)

/-- Character set under IGNORECASE. -/
def reOneOfCI (l : List Char) : RE := .cls (fun x => l.contains (pyLowerChar x))

/-- Sequence of regexes. -/
def reSeqAll (l : List RE) : RE := l.foldr .seq .eps

/-- Literal string. -/
def reStr (s : String) : RE := reSeqAll (s.data.map reChr)

/-- Literal string under IGNORECASE. -/
def reStrCI (s : String) : RE := reSeqAll (s.data.map reChrCI)

/-- Greedy `+`. -/
def rePlus (r : RE) : RE := .rep r 1 none false

/-- Greedy `*`. -/
def reStar (r : RE) : RE := .rep r 0 none false

/-- Lazy `+?`. -/
def rePlusLazy (r : RE) : RE := .rep r 1 none true

/-- Lazy `*?`. -/
def reStarLazy (r : RE) : RE := .rep r 0 none true

/-- Greedy `?`. -/
def reOpt (r : RE) : RE := .rep r 0 (some 1) false

/-- `\d` (the extraction data is ASCII). -/
def reD : RE := .cls (fun c => c.isDigit)

/-- `\s`. -/
def reS : RE := .cls pyIsSpace

/-- `.` (any char but newline). -/
def reDot : RE := .cls (fun c => c != '\n')

/-! ## The concrete patterns of streamlit_app.py -/

/-- `\d{1,2}[/\-]\d{1,2}[/\-]\d{2,4}` — a date token. -/
def dateRE : RE :=
  reSeqAll [.rep reD 1 (some 2) false, reOneOf ['/', '-'],
            .rep reD 1 (some 2) false, reOneOf ['/', '-'],
            .rep reD 2 (some 4) false]

/-- `\d{1,2}:\d{2}:\d{2}` — a full time token. -/
def timeFullRE : RE :=
  reSeqAll [.rep reD 1 (some 2) false, reChr ':', .rep reD 2 (some 2) false,
            reChr ':', .rep reD 2 (some 2) false]

/-- `\d{1,2}:\d{2}` — the short time token used as a gate by Strategy C. -/
def timeShortRE : RE :=
  reSeqAll [.rep reD 1 (some 2) false, reChr ':', .rep reD 2 (some 2) false]

/-- `regex_registro` (streamlit_app.py lines 435-443), IGNORECASE:
date, executor with numeric code, three times, Sim/Não. -/
def regex_registro : RE :=
  reSeqAll [.grp 1 dateRE, rePlus reS,
            .grp 2 (reSeqAll [rePlus reD, reStar reS, reChr '-', reStar reS,
                              rePlusLazy (.cls (fun c => !c.isDigit))]),
            rePlus reS,
            .grp 3 timeFullRE, rePlus reS,
            .grp 4 timeFullRE, rePlus reS,
            .grp 5 timeFullRE, rePlus reS,
            .grp 6 (.alt (reStrCI "Sim") (reStrCI "Não"))]

/-- `regex_flex` (lines 483-485): date then three times anywhere. -/
def regex_flex : RE :=
  reSeqAll [.grp 1 dateRE, reStarLazy reDot, .grp 2 timeFullRE,
            reStarLazy reDot, .grp 3 timeFullRE, reStarLazy reDot,
            .grp 4 timeFullRE]

/-- `[A-Za-z]`. -/
def alphaAsciiRE : RE :=
  .cls (fun c => ('A' ≤ c && c ≤ 'Z') || ('a' ≤ c && c ≤ 'z'))

/-- `(\d+\s*-\s*[A-Za-z][^0-9]+)` — executor search of Strategy B (line 492). -/
def execFlexRE : RE :=
  .grp 1 (reSeqAll [rePlus reD, reStar reS, reChr '-', reStar reS,
                    alphaAsciiRE, rePlus (.cls (fun c => !c.isDigit))])

/-- `(\d+\s*-\s*[A-Za-z][^0-9\n\r]+)` — executor search of Strategy C (line 531). -/
def execManualRE : RE :=
  .grp 1 (reSeqAll [rePlus reD, reStar reS, reChr '-', reStar reS,
                    alphaAsciiRE,
                    rePlus (.cls (fun c => !(c.isDigit || c = '\n' || c = '\r')))])

/-- `^\d+\s*-\s*` — the executor code prefix removed by re.sub
(lines 452, 494, 534); used anchored via reSubAnchored. -/
def execCodeRE : RE :=
  reSeqAll [rePlus reD, reStar reS, reChr '-', reStar reS]

/-- `\b(Sim|Não)\b` IGNORECASE — billable marker search of Strategy B (line 495). -/
def cobrarRE : RE :=
  reSeqAll [.wb, .grp 1 (.alt (reStrCI "Sim") (reStrCI "Não")), .wb]

/-- `Serv[ií]?[çc]o\s+Exec` IGNORECASE — the "service performed" header
(line 1267). -/
def headerRE : RE :=
  reSeqAll [reChrCI 'S', reChrCI 'e', reChrCI 'r', reChrCI 'v',
            .rep (reOneOfCI ['i', 'í']) 0 (some 1) false,
            reOneOfCI ['ç', 'c'], reChrCI 'o', rePlus reS,
            reChrCI 'E', reChrCI 'x', reChrCI 'e', reChrCI 'c']

/-- `Serv[ií]?[çc]o\s+Exec[^:]*[:\-\–]\s*(.*)$` IGNORECASE — trailing
content on the header line (line 1269). -/
def headerContentRE : RE :=
  reSeqAll [reChrCI 'S', reChrCI 'e', reChrCI 'r', reChrCI 'v',
            .rep (reOneOfCI ['i', 'í']) 0 (some 1) false,
            reOneOfCI ['ç', 'c'], reChrCI 'o', rePlus reS,
            reChrCI 'E', reChrCI 'x', reChrCI 'e', reChrCI 'c',
            reStar (.cls (fun c => c != ':')), reOneOf [':', '-', '–'],
            reStar reS, .grp 1 (reStar reDot), .eol]

/-- `\s*\d{1,2}[/\-]\d{1,2}[/\-]\d{2,4}\s+\d+\s*-\s+` — start of a new
record (line 1253, used with re.match). -/
def novoRegistroRE : RE :=
  reSeqAll [reStar reS, dateRE, rePlus reS, rePlus reD, reStar reS,
            reChr '-', rePlus reS]

/-- The delimiter vocabulary of the harvester (lines 1256-1259), IGNORECASE. -/
def delimitadorRE : RE :=
  [ reSeqAll [reStrCI "Hr", reChr '(', reStar reS, reChr ')', reStar reS,
              reStrCI "Tec"],
    reSeqAll [reStrCI "Total", rePlus reS, reStrCI "Hr"],
    reSeqAll [reStrCI "Valor", reStar reS, reChr 'R', reChr '$'],
    reSeqAll [reStrCI "Informações", rePlus reS, reStrCI "de", rePlus reS,
              reStrCI "Cobrança"],
    reStrCI "Assinatura",
    reStrCI "Formulário",
    reStrCI "Ficha",
    reSeqAll [reStrCI "Cliente", reStar reS, .rep reD 3 none false]
  ].foldr .alt (.cls (fun _ => false))

/-- `^[\-\=_.\s]{3,}$` — pure separator line (line 1280, re.match). -/
def separadorRE : RE :=
  reSeqAll [.rep (.cls (fun c => c = '-' || c = '=' || c = '_' || c = '.' ||
                                 pyIsSpace c)) 3 none false, .eol]

/-- First ficha-number pattern `\bFicha\s*[:\-#]*\s*(\d{3,})` IGNORECASE
(line 1230). -/
def fichaP1RE : RE :=
  reSeqAll [.wb, reStrCI "Ficha", reStar reS,
            reStar (reOneOf [':', '-', '#']), reStar reS,
            .grp 1 (.rep reD 3 none false)]

/-- Second ficha-number pattern `\bFICHA\s*[:\-#]*\s*(\d{3,})` IGNORECASE
(line 1231; under IGNORECASE it coincides with the first). -/
def fichaP2RE : RE :=
  reSeqAll [.wb, reStrCI "FICHA", reStar reS,
            reStar (reOneOf [':', '-', '#']), reStar reS,
            .grp 1 (.rep reD 3 none false)]

/-- Third ficha-number pattern
`\bN[ºo]\s*[:\-#]*\s*(\d{3,})\s*(?:Ficha|FICHA)?` IGNORECASE (line 1232). -/
def fichaP3RE : RE :=
  reSeqAll [.wb, reChrCI 'N', reOneOfCI ['º', 'o'], reStar reS,
            reStar (reOneOf [':', '-', '#']), reStar reS,
            .grp 1 (.rep reD 3 none false), reStar reS,
            .rep (.alt (reStrCI "Ficha") (reStrCI "FICHA")) 0 (some 1) false]

/-! ## extrair_numero_ficha (lines 1224-1240) -/

/-- `num.lstrip('0') or num`. -/
def lstripZerosOrSelf (num : String) : String :=
  let r := pyLstripZeros num
  if r = "" then num else r

/-- `extrair_numero_ficha`: first ficha-number pattern that matches the
whole text wins; its digits are returned with leading zeros stripped
(kept whole if all zeros); empty string when nothing matches. -/
def extrair_numero_ficha (texto : String) : String :=
  match reSearch fichaP1RE texto with
  | some m => lstripZerosOrSelf (groupStr texto.data m 1)
  | none =>
    match reSearch fichaP2RE texto with
    | some m => lstripZerosOrSelf (groupStr texto.data m 1)
    | none =>
      match reSearch fichaP3RE texto with
      | some m => lstripZerosOrSelf (groupStr texto.data m 1)
      | none => ""

/-! ## calcular_total_horas (lines 923-936) -/

/-- strptime(x, "%H:%M"): two colon-separated 1-2 digit fields,
hour < 24, minute < 60, whole string consumed. -/
def parseHM (s : String) : Option (Nat × Nat) :=
  match pySplitChar ':' s.data with
  | [a, b] =>
      if !a.isEmpty && a.length ≤ 2 && a.all (fun c => c.isDigit) &&
         !b.isEmpty && b.length ≤ 2 && b.all (fun c => c.isDigit) then
        let h := digitsToNat a
        let m := digitsToNat b
        if h < 24 && m < 60 then some (h, m) else none
      else none
  | _ => none

/-- Zero-padded 2-digit rendering (f"{n:02d}" for the n < 100 produced here). -/
def pad2 (n : Nat) : String :=
  if n < 10 then "0" ++ toString n else toString n

/-- `calcular_total_horas`: difference end - start of two "%H:%M" times as
an HH:MM:SS string; wraps past midnight by adding one day when end < start;
returns "00:00:00" when either time fails to parse. -/
def calcular_total_horas (hr_inicio hr_fim : String) : String :=
  match parseHM hr_inicio, parseHM hr_fim with
  | some (h1, m1), some (h2, m2) =>
      let ini := h1 * 60 + m1
      let fim0 := h2 * 60 + m2
      let fim := if fim0 < ini then fim0 + 1440 else fim0
      let total_seg := (fim - ini) * 60
      pad2 (total_seg / 3600) ++ ":" ++ pad2 (total_seg % 3600 / 60) ++ ":" ++
        pad2 (total_seg % 60)
  | _, _ => "00:00:00"

/-! ## buscar_descricao_serv_exec (lines 1243-1295) -/

/-- First index i in [i, fim) (fuel = fim - i) whose stripped line matches
the header pattern. -/
def findHeaderAux (linhas : List String) : Nat → Nat → Option Nat
  | 0, _ => none
  | f + 1, i =>
      if reTest headerRE (pyStrip (linhas.getD i "")) then some i
      else findHeaderAux linhas f (i + 1)

/-- The collection loop of the harvester (lines 1274-1284): stripped lines
from j up to (excl.) the bound, skipping empties/separators/digit-only
lines, stopping at a new-record or delimiter line. -/
def collectBodyAux (linhas : List String) : Nat → Nat → List String
  | 0, _ => []
  | f + 1, j =>
      let l2 := pyStrip (linhas.getD j "")
      if l2 = "" then collectBodyAux linhas f (j + 1)
      else if reTestAt0 novoRegistroRE l2 || reTest delimitadorRE l2 then []
      else if reTestAt0 separadorRE l2 || pyIsDigit l2 then
        collectBodyAux linhas f (j + 1)
      else l2 :: collectBodyAux linhas f (j + 1)

/-- `re.sub(r'\s+', ' ', ...)`: collapse every whitespace run to one space. -/
def collapseWSAux : List Char → Bool → List Char
  | [], _ => []
  | c :: cs, prev =>
      if pyIsSpace c then
        if prev then collapseWSAux cs true else ' ' :: collapseWSAux cs true
      else c :: collapseWSAux cs false

/-- `re.sub(r'[,\s\-_]+$', '.', ...)`: replace a trailing run of commas,
whitespace, dashes, underscores by a period. -/
def trailPunct (l : List Char) : List Char :=
  let p : Char → Bool := fun c => c = ',' || c = '-' || c = '_' || pyIsSpace c
  match l.reverse with
  | [] => l
  | c :: _ =>
      if p c then (('.') :: (l.reverse.dropWhile p)).reverse else l

/-- Last character is sentence-ending punctuation ('.', '!', '?', ':'). -/
def endsSentence (s : String) : Bool :=
  match s.data.getLast? with
  | some c => ['.', '!', '?', ':'].contains c
  | none => false

/-- The final cleanup of the harvester (lines 1290-1294). -/
def harvestJoin (partes : List String) : String :=
  let texto := String.intercalate " " partes
  let texto := pyStrip (String.mk (collapseWSAux texto.data false))
  let texto := String.mk (trailPunct texto.data)
  if texto ≠ "" && !endsSentence texto then texto ++ "." else texto

/-- `buscar_descricao_serv_exec`: search the window
[max(0, idx-2), min(len, idx+25)) for a "Serviço Exec" header line; on the
first hit take the trailing content of that line plus the following
narrative lines (up to 30 ahead, stopping at delimiters); join and
punctuate.  Empty string when no header is found (or nothing collected). -/
def buscar_descricao_serv_exec (linhas : List String) (idx : Nat) : String :=
  let inicio := idx - 2
  let fim := min linhas.length (idx + 25)
  match findHeaderAux linhas (fim - inicio) inicio with
  | none => ""
  | some i =>
      let linha := pyStrip (linhas.getD i "")
      let headPart : List String :=
        match reSearch headerContentRE linha with
        | some m =>
            let g := pyStrip (groupStr linha.data m 1)
            if g ≠ "" then [g] else []
        | none => []
      let corpo := collectBodyAux linhas (min (i + 30) linhas.length - (i + 1)) (i + 1)
      let desc_partes := headPart ++ corpo
      if desc_partes.isEmpty then "" else harvestJoin desc_partes

/-! ## The record-extraction part of extrair_dados_viasell_corrigido
(streamlit_app.py lines 369-558)

Only the `registros` computation (lines 385-389 and 431-556) is embedded:
the remaining fields of the returned dict (cliente, projeto_id, vertical,
tipo_servico, valor_hora) are display metadata populated independently of
the record list, and the st.* calls are UI output with no effect on it. -/

/-- The per-record dict built by the extraction strategies
(keys of the dicts appended to `registros`). -/
structure Registro where
  data : String
  executor : String
  hr_inicio : String
  hr_fim : String
  total_hrs : String
  descricao : String
  faturavel : Bool
  tarefa_id : String
  tarefa_nome : String
  deriving Repr, DecidableEq

/-- Python `s[:5]`. -/
def take5 (s : String) : String := String.mk (s.data.take 5)

/-- The synthesized fallback description
f"Atividade executada em {data} por {executor}.". -/
def descFallback (dataN executor : String) : String :=
  "Atividade executada em " ++ dataN ++ " por " ++ executor ++ "."

/-- One iteration of the Strategy A loop (lines 446-475): strict
single-line pattern; None when the line does not match. -/
def stratARegistro (linhas : List String) (fichaPref : String) (idx : Nat) :
    Option Registro :=
  let linha := linhas.getD idx ""
  match reSearch regex_registro linha with
  | none => none
  | some m =>
      let data := groupStr linha.data m 1
      let executor := groupStr linha.data m 2
      let hr_inicio := groupStr linha.data m 3
      let hr_fim := groupStr linha.data m 4
      let total_hrs := groupStr linha.data m 5
      let cobrar := groupStr linha.data m 6
      let executor_limpo := reSubAnchored execCodeRE (pyStrip executor)
      let faturavel := pyLower (pyStrip cobrar) = "sim"
      let data_normalizada := normalizar_data data
      let desc0 := buscar_descricao_serv_exec linhas idx
      let desc_exec :=
        if desc0 = "" then descFallback data_normalizada executor_limpo else desc0
      some { data := data_normalizada, executor := executor_limpo,
             hr_inicio := hr_inicio, hr_fim := hr_fim, total_hrs := total_hrs,
             descricao := fichaPref ++ desc_exec, faturavel := faturavel,
             tarefa_id := "", tarefa_nome := "" }

/-- Strategy A over the whole document, in line order. -/
def stratA (linhas : List String) (fichaPref : String) : List Registro :=
  (List.range linhas.length).filterMap (stratARegistro linhas fichaPref)

/-- One iteration of the Strategy B loop (lines 486-512): flexible
pattern plus secondary executor / billable searches. -/
def stratBRegistro (linhas : List String) (fichaPref : String) (idx : Nat) :
    Option Registro :=
  let linha := linhas.getD idx ""
  match reSearch regex_flex linha with
  | none => none
  | some m =>
      let data := groupStr linha.data m 1
      let hr_inicio := groupStr linha.data m 2
      let hr_fim := groupStr linha.data m 3
      let total_hrs := groupStr linha.data m 4
      let executor :=
        match reSearch execFlexRE linha with
        | some em => groupStr linha.data em 1
        | none => "Executor não identificado"
      let executor_limpo := reSubAnchored execCodeRE (pyStrip executor)
      let faturavel :=
        match reSearch cobrarRE linha with
        | some cm => pyLower (groupStr linha.data cm 1) = "sim"
        | none => false
      let data_normalizada := normalizar_data data
      let desc0 := buscar_descricao_serv_exec linhas idx
      let desc_exec :=
        if desc0 = "" then descFallback data_normalizada executor_limpo else desc0
      some { data := data_normalizada, executor := executor_limpo,
             hr_inicio := hr_inicio, hr_fim := hr_fim, total_hrs := total_hrs,
             descricao := fichaPref ++ desc_exec, faturavel := faturavel,
             tarefa_id := "", tarefa_nome := "" }

/-- Strategy B over the whole document. -/
def stratB (linhas : List String) (fichaPref : String) : List Registro :=
  (List.range linhas.length).filterMap (stratBRegistro linhas fichaPref)

/-- One iteration of the Strategy C loop (lines 517-553): manual scan of
every line holding a date token and a time token. -/
def stratCRegistro (linhas : List String) (fichaPref : String) (i : Nat) :
    Option Registro :=
  let linha := linhas.getD i ""
  if pyStrip linha = "" then none
  else if reTest dateRE linha && reTest timeShortRE linha then
    let datas := reFindAll dateRE linha
    let horarios := reFindAll timeFullRE linha
    if !datas.isEmpty && 2 ≤ horarios.length then
      let data := datas.getD 0 ""
      let hr_inicio := horarios.getD 0 ""
      let hr_fim := if 1 < horarios.length then horarios.getD 1 "" else "00:00:00"
      let total_hrs :=
        if 2 < horarios.length then horarios.getD 2 ""
        else calcular_total_horas (take5 hr_inicio) (take5 hr_fim)
      let executor :=
        match reSearch execManualRE linha with
        | some em => reSubAnchored execCodeRE (pyStrip (groupStr linha.data em 1))
        | none => "Executor não identificado"
      let faturavel := pyContains (pyLower linha) "sim"
      let data_normalizada := normalizar_data data
      let desc0 := buscar_descricao_serv_exec linhas i
      let desc_exec :=
        if desc0 = "" then descFallback data_normalizada executor else desc0
      some { data := data_normalizada, executor := executor,
             hr_inicio := hr_inicio, hr_fim := hr_fim, total_hrs := total_hrs,
             descricao := fichaPref ++ desc_exec, faturavel := faturavel,
             tarefa_id := "", tarefa_nome := "" }
    else none
  else none

/-- Strategy C over the whole document. -/
def stratC (linhas : List String) (fichaPref : String) : List Registro :=
  (List.range linhas.length).filterMap (stratCRegistro linhas fichaPref)

/-- Document text to lines, Python text.split('\n'). -/
def splitLines (texto : String) : List String :=
  (pySplitChar '\n' texto.data).map String.mk

/-- The FICHA prefix for descriptions (lines 386-387). -/
def fichaPref (texto : String) : String :=
  let ficha_num := extrair_numero_ficha texto
  if ficha_num ≠ "" then "FICHA " ++ ficha_num ++ " - " else ""

/-- The `registros` list produced by extrair_dados_viasell_corrigido:
Strategy A first; Strategy B only when A produced nothing; Strategy C only
when A and B produced nothing (the two `if not registros` fallbacks at
lines 481 and 515). -/
def extrair_registros_viasell (texto : String) : List Registro :=
  let linhas := splitLines texto
  let pref := fichaPref texto
  let registros := stratA linhas pref
  let registros := if registros.isEmpty then stratB linhas pref else registros
  let registros := if registros.isEmpty then stratC linhas pref else registros
  registros

/-! ## The Teamwork time-entry poster
(_hms_to_h_m, _hms_to_decimal, _post_time_entry_tw;
streamlit_app.py lines 968-1076, configuracao_teamwork.py line 7)

The network call requests.post is modelled by a response oracle
`send : endpoint → stripped payload → SendResult` passed explicitly; the
function is otherwise a direct translation.  `r.json()` on a success
response is modelled as the raw response text. -/

/-- The RegistroAtividade dataclass (streamlit_app.py lines 104-119).
The float field ml_confianca is UI metadata never read by the functions
embedded here and is omitted. -/
structure RegistroAtividade where
  id : String
  data : String
  executor : String
  hr_inicio : String
  hr_fim : String
  descricao : String
  total_hrs : String
  faturavel : Bool
  tarefa_id : String := ""
  tarefa_nome : String := ""
  executor_id : String := ""
  ml_sugestao : String := ""
  deriving Repr, DecidableEq

/-- TEAMWORK_CONFIG['base_url'].rstrip('/') (configuracao_teamwork.py
line 7; the configured value has no trailing slash). -/
def twBase : String := "https://viasoft.teamwork.com"

/-- `[int(x) for x in hms.split(":")]` unpacked to three values: three
colon-separated digit fields (int() accepts the regex-produced digit
strings; every other shape raises and lands in the except branch). -/
def parseHMS (s : String) : Option (Nat × Nat × Nat) :=
  match pySplitChar ':' s.data with
  | [a, b, c] =>
      if !a.isEmpty && a.all (fun x => x.isDigit) &&
         !b.isEmpty && b.all (fun x => x.isDigit) &&
         !c.isEmpty && c.all (fun x => x.isDigit) then
        some (digitsToNat a, digitsToNat b, digitsToNat c)
      else none
  | _ => none

/-- `int(round(h*60 + m + s/60.0))`.  On the 1-2 digit fields fed to it a
double holds h*60 + m exactly and s/60.0 within 2^-52, so the float round
agrees with exact rounding except at the exact ties s % 60 = 30, where
Python rounds half to even — modelled explicitly. -/
def totalMinRound (h m s : Nat) : Nat :=
  let base := 60 * h + m + s / 60
  let r := s % 60
  if r < 30 then base
  else if 30 < r then base + 1
  else if base % 2 = 0 then base else base + 1

/-- `_hms_to_h_m` (lines 968-974): H:MM:SS to (hours, minutes), rounding
total seconds to the nearest minute; (0, 0) when parsing fails. -/
def hms_to_h_m (hms : String) : Nat × Nat :=
  match parseHMS (if hms = "" then "0:0:0" else hms) with
  | none => (0, 0)
  | some (h, m, s) =>
      let t := totalMinRound h m s
      (t / 60, t % 60)

/-- `_hms_to_decimal` (lines 976-982): H:MM:SS as decimal hours formatted
to two decimals; "0" when parsing fails.  The f"{dec:.2f}" float format is
modelled as the exact value rounded half-up to centihours (the float
rounding can differ only on exact .005 ties, where the double
representation decides the direction; no claim below depends on it). -/
def hms_to_decimal (hms : String) : String :=
  match parseHMS (if hms = "" then "0:0:0" else hms) with
  | none => "0"
  | some (h, m, s) =>
      let centi := (3600 * h + 60 * m + s + 18) / 36
      toString (centi / 100) ++ "." ++ pad2 (centi % 100)

/-- Gregorian leap year (datetime's calendar). -/
def isLeap (y : Nat) : Bool := y % 4 = 0 && (y % 100 ≠ 0 || y % 400 = 0)

/-- Days in a month (datetime's calendar). -/
def daysInMonth (y m : Nat) : Nat :=
  if m = 2 then (if isLeap y then 29 else 28)
  else if [4, 6, 9, 11].contains m then 30 else 31

/-- strptime(s, "%d/%m/%Y"): day and month of 1-2 digits, year of up to 4
digits, all validated against the calendar. -/
def parseDMY (s : String) : Option (Nat × Nat × Nat) :=
  match pySplitChar '/' s.data with
  | [d, m, y] =>
      if !d.isEmpty && d.length ≤ 2 && d.all (fun c => c.isDigit) &&
         !m.isEmpty && m.length ≤ 2 && m.all (fun c => c.isDigit) &&
         !y.isEmpty && y.length ≤ 4 && y.all (fun c => c.isDigit) then
        let dd := digitsToNat d
        let mm := digitsToNat m
        let yy := digitsToNat y
        if 1 ≤ yy && 1 ≤ mm && mm ≤ 12 && 1 ≤ dd && dd ≤ daysInMonth yy mm then
          some (dd, mm, yy)
        else none
      else none
  | _ => none

/-- Zero-padded 4-digit year (program dates are 4-digit by construction). -/
def pad4 (n : Nat) : String :=
  if n < 10 then "000" ++ toString n
  else if n < 100 then "00" ++ toString n
  else if n < 1000 then "0" ++ toString n
  else toString n

/-- strftime("%Y-%m-%d"). -/
def dateISO (d m y : Nat) : String := pad4 y ++ "-" ++ pad2 m ++ "-" ++ pad2 d

/-- strftime("%Y%m%d"). -/
def dateNum (d m y : Nat) : String := pad4 y ++ pad2 m ++ pad2 d

/-- A JSON payload value as built by the payload helpers.  `pynone`
mirrors Python None; the builders never produce it, but the stripping
comprehension tests for it. -/
inductive PVal where
  | str (s : String)
  | int (n : Nat)
  | bool (b : Bool)
  | pynone
  deriving Repr, DecidableEq

/-- The time-entry dict: insertion-ordered key/value pairs. -/
abbrev Payload := List (String × PVal)

/-- `{k: v for k, v in pay["time-entry"].items() if v not in ("", None)}`
(line 1065). -/
def stripPayload (p : Payload) : Payload :=
  p.filter (fun kv => !(kv.2 = .str "" || kv.2 = .pynone))

/-- `int(reg.tarefa_id) if str(reg.tarefa_id).isdigit() else None`. -/
def taskIdI (reg : RegistroAtividade) : Option Nat :=
  if pyIsDigit reg.tarefa_id then some (digitsToNat reg.tarefa_id.data) else none

/-- `int(reg.executor_id) if str(reg.executor_id).isdigit() else None`. -/
def userIdI (reg : RegistroAtividade) : Option Nat :=
  if pyIsDigit reg.executor_id then some (digitsToNat reg.executor_id.data)
  else none

/-- Python truthiness of an Optional[int] (`if task_id_i:`). -/
def optTruthy : Option Nat → Bool
  | some n => n != 0
  | none => false

/-- The description sent: stripped and cut to 2000 chars with an ellipsis
marker (lines 1003-1005). -/
def descrOf (reg : RegistroAtividade) : String :=
  let d := pyStrip reg.descricao
  if 2000 < d.length then String.mk (d.data.take 2000) ++ "…" else d

/-- `(reg.hr_inicio or "00:00")[:5]` (line 995). -/
def timeHmOf (reg : RegistroAtividade) : String :=
  take5 (if reg.hr_inicio = "" then "00:00" else reg.hr_inicio)

/-- hh, mm for the payloads, with the zero-duration floor of lines
997-999: a rounded total of exactly (0, 0) becomes (0, 1). -/
def hhmmOf (reg : RegistroAtividade) : Nat × Nat :=
  let p := hms_to_h_m reg.total_hrs
  if p.1 = 0 && p.2 = 0 then (0, 1) else p

/-- `int(project_id) if str(project_id).isdigit() else project_id`, as it
renders inside the endpoint URL. -/
def projIdStr (project_id : String) : String :=
  if pyIsDigit project_id then toString (digitsToNat project_id.data)
  else project_id

/-- The candidate endpoints in order (lines 1007-1011): task-scoped only
when the task id is a truthy int, then project-scoped, then global. -/
def endpointsOf (reg : RegistroAtividade) (project_id : String) : List String :=
  (if optTruthy (taskIdI reg) then
     [twBase ++ "/tasks/" ++ toString ((taskIdI reg).getD 0) ++ "/time_entries.json"]
   else []) ++
  [twBase ++ "/projects/" ++ projIdStr project_id ++ "/time_entries.json",
   twBase ++ "/time_entries.json"]

/-- `_payload_kebab` (lines 1013-1028). -/
def payloadKebab (reg : RegistroAtividade) (date_value : String)
    (use_decimal include_time bill_as_int : Bool) : Payload :=
  [("date", .str date_value),
   ("description", .str (descrOf reg)),
   ("isbillable",
     if bill_as_int then .int (if reg.faturavel then 1 else 0)
     else .str (if reg.faturavel then "1" else "0"))] ++
  (if include_time then [("time", .str (timeHmOf reg))] else []) ++
  (if use_decimal then [("hours", .str (hms_to_decimal reg.total_hrs))]
   else [("hours", .int (hhmmOf reg).1), ("minutes", .int (hhmmOf reg).2)]) ++
  (if optTruthy (taskIdI reg) then [("task-id", .int ((taskIdI reg).getD 0))]
   else []) ++
  (if optTruthy (userIdI reg) then [("person-id", .int ((userIdI reg).getD 0))]
   else [])

/-- `_payload_camel` (lines 1030-1045). -/
def payloadCamel (reg : RegistroAtividade) (date_value : String)
    (use_decimal include_time : Bool) : Payload :=
  [("date", .str date_value),
   ("description", .str (descrOf reg)),
   ("isBillable", .bool reg.faturavel)] ++
  (if include_time then [("time", .str (timeHmOf reg))] else []) ++
  (if use_decimal then [("hours", .str (hms_to_decimal reg.total_hrs))]
   else [("hours", .int (hhmmOf reg).1), ("minutes", .int (hhmmOf reg).2)]) ++
  (if optTruthy (taskIdI reg) then [("taskId", .int ((taskIdI reg).getD 0))]
   else []) ++
  (if optTruthy (userIdI reg) then [("userId", .int ((userIdI reg).getD 0))]
   else [])

/-- The eight payload variants in attempt order (lines 1047-1059). -/
def payloadsOf (reg : RegistroAtividade) (date_num date_iso : String) :
    List Payload :=
  [payloadKebab reg date_num false true true,
   payloadKebab reg date_num false true false,
   payloadKebab reg date_iso false true true,
   payloadKebab reg date_num true true true,
   payloadCamel reg date_num false true,
   payloadCamel reg date_num true true,
   payloadKebab reg date_num false false true,
   payloadCamel reg date_num false false]

/-- All (endpoint, stripped payload) combinations in attempt order
(endpoint-major, as the nested for loops of lines 1063-1064; the
stripping of line 1065 is applied where the payload is sent). -/
def combosOf (reg : RegistroAtividade) (project_id : String)
    (date_num date_iso : String) : List (String × Payload) :=
  (endpointsOf reg project_id).flatMap fun ep =>
    (payloadsOf reg date_num date_iso).map fun pay => (ep, stripPayload pay)

/-- Result of one requests.post call: an HTTP response or a raised
exception (connection error, timeout, or invalid JSON on success). -/
inductive SendResult where
  | resp (status : Nat) (text : String)
  | exc (msg : String)
  deriving Repr, DecidableEq

/-- The status slot of a logged attempt: the integer code or "EXC". -/
inductive StatusTag where
  | code (n : Nat)
  | exc
  deriving Repr, DecidableEq

/-- One entry of the `erros` diagnostic list (lines 1071 and 1073):
(endpoint, status, stripped payload, response text cut to 300 chars). -/
structure Tentativa where
  endpoint : String
  status : StatusTag
  payload : Payload
  texto : String
  deriving Repr, DecidableEq

/-- `(r.text or "")[:300]` / `str(e)[:300]`. -/
def take300 (s : String) : String := String.mk (s.data.take 300)

/-- Outcome of `_post_time_entry_tw`: a successful response, the
aggregated HTTPError carrying `erros[-3:]`, or the ValueError from
strptime on a malformed record date. -/
inductive PostOutcome where
  | ok (status : Nat) (body : String)
  | errAgg (samples : List Tentativa)
  | dateError
  deriving Repr, DecidableEq

/-- The attempt loop (lines 1061-1076): try each combination, return on
the first status < 400, log each failure, and after exhausting everything
raise with the last three logged attempts (`erros[-3:]`). -/
def postLoop (send : String → Payload → SendResult) :
    List (String × Payload) → List Tentativa → PostOutcome
  | [], erros => .errAgg (erros.drop (erros.length - 3))
  | (ep, te) :: rest, erros =>
      match send ep te with
      | .resp status text =>
          if status < 400 then .ok status text
          else postLoop send rest (erros ++ [⟨ep, .code status, te, take300 text⟩])
      | .exc msg => postLoop send rest (erros ++ [⟨ep, .exc, te, take300 msg⟩])

/-- `_post_time_entry_tw` (lines 984-1076), with requests.post replaced by
the `send` oracle. -/
def post_time_entry_tw (reg : RegistroAtividade) (project_id : String)
    (send : String → Payload → SendResult) : PostOutcome :=
  match parseDMY reg.data with
  | none => .dateError
  | some (d, m, y) =>
      postLoop send (combosOf reg project_id (dateNum d m y) (dateISO d m y)) []

/-- The attempt log produced when every combination fails: one entry per
combination, in attempt order. -/
def attemptsAllFail (send : String → Payload → SendResult)
    (combos : List (String × Payload)) : List Tentativa :=
  combos.map fun c =>
    match send c.1 c.2 with
    | .resp st tx => ⟨c.1, .code st, c.2, take300 tx⟩
    | .exc msg => ⟨c.1, .exc, c.2, take300 msg⟩

/-- An attempt fails: error status or exception. -/
def isFailure : SendResult → Prop
  | .resp st _ => 400 ≤ st
  | .exc _ => True

/-! ## Task collection, tag filtering, dedup and sort
(get_tasks_by_tag_and_project, streamlit_app.py lines 234-337)

The paginated fetch is a network effect; its result is the `items` list
fed to the pure part embedded here (the `_collect` flattening of lines
297-320, the tag filter of lines 322-325, the dedup of lines 327-333 and
the sort of line 336). -/

/-- A task item as returned by the API: the fields `_collect` reads.
`tags` holds the name entries of the tag dicts ("" for a missing name). -/
inductive TWItem where
  | node (content name idStr : Option String)
         (idNum taskIdNum parentTaskId : Option Nat)
         (tags : List String) (subTasks : List TWItem)

/-- A flattened task entry (the dicts appended to `out`). -/
structure TWTask where
  id : String
  name : String
  tags : List String
  parentId : String
  deriving Repr, DecidableEq

/-- Python `x or ...` chaining for optional ints (0 and None are falsy). -/
def pyOrNat : Option Nat → Option Nat
  | some n => if n = 0 then none else some n
  | none => none

/-- Python `x or ...` chaining for optional strings ("" and None falsy). -/
def pyOrStr : Option String → Option String
  | some s => if s = "" then none else some s
  | none => none

/-- `str(item.get("id") or item.get("id_str") or item.get("taskId") or "")`. -/
def tidOf (idNum : Option Nat) (idStr : Option String) (taskIdNum : Option Nat) :
    String :=
  match pyOrNat idNum with
  | some n => toString n
  | none =>
    match pyOrStr idStr with
    | some s => s
    | none =>
      match pyOrNat taskIdNum with
      | some n => toString n
      | none => ""

/-- Append the parent tags not already present (the inheritance loop of
lines 303-306). -/
def mergeTags (tags ptags : List String) : List String :=
  ptags.foldl (fun acc t => if acc.contains t then acc else acc ++ [t]) tags

mutual
/-- `_collect` on one item (lines 297-316): build the flattened entry,
then recurse into subTasks passing this entry's id and effective tags. -/
def collectItem (inherit : Bool) : TWItem → String → List String → List TWTask
  | .node content name idStr idNum taskIdNum parentTaskId tags subTasks,
    pid, ptags =>
      let nm := ((pyOrStr content).orElse fun _ => pyOrStr name).getD ""
      let tid := tidOf idNum idStr taskIdNum
      let tags1 := tags.filter (fun t => t ≠ "")
      let tags2 := if inherit && !ptags.isEmpty then mergeTags tags1 ptags else tags1
      let pidOut :=
        if pid ≠ "" then pid
        else match pyOrNat parentTaskId with
             | some n => toString n
             | none => ""
      ⟨tid, nm, tags2, pidOut⟩ :: collectSubs inherit subTasks tid tags2

/-- `_collect` folded over a list of items in order. -/
def collectSubs (inherit : Bool) : List TWItem → String → List String → List TWTask
  | [], _, _ => []
  | x :: xs, pid, ptags =>
      collectItem inherit x pid ptags ++ collectSubs inherit xs pid ptags
end

/-- The dedup loop of lines 327-333: keep the first occurrence of each
non-empty id. -/
def dedupTasks : List TWTask → List String → List TWTask
  | [], _ => []
  | t :: rest, seen =>
      if t.id ≠ "" && !seen.contains t.id then
        t :: dedupTasks rest (t.id :: seen)
      else dedupTasks rest seen

/-- Lexicographic char-list comparison (Python string <=). -/
def charListLe : List Char → List Char → Bool
  | [], _ => true
  | _ :: _, [] => false
  | a :: as1, b :: bs1 =>
      if a < b then true else if b < a then false else charListLe as1 bs1

/-- Stable insertion of x after every element with key ≤ its key. -/
def insSorted (le : TWTask → TWTask → Bool) (x : TWTask) :
    List TWTask → List TWTask
  | [] => [x]
  | y :: ys => if le y x then y :: insSorted le x ys else x :: y :: ys

/-- Python's stable ascending list.sort, by a boolean total preorder. -/
def pySort (le : TWTask → TWTask → Bool) (l : List TWTask) : List TWTask :=
  l.foldl (fun acc x => insSorted le x acc) []

/-- The sort key of line 336: case-insensitive name. -/
def taskNameLe (a b : TWTask) : Bool :=
  charListLe (pyLower a.name).data (pyLower b.name).data

/-- The pure tail of get_tasks_by_tag_and_project (lines 297-337):
flatten the fetched items with optional tag inheritance, filter by
case-insensitive tag, dedup by id keeping the first occurrence, and sort
by case-insensitive name. -/
def tasksByTag (items : List TWItem) (tag_query : String)
    (inherit_from_parent : Bool) : List TWTask :=
  let flat := collectSubs inherit_from_parent items "" []
  let tag_q := pyLower (pyStrip tag_query)
  let flat :=
    if tag_q ≠ "" then
      flat.filter (fun t => t.tags.any (fun tg => tag_q = pyLower tg))
    else flat
  pySort taskNameLe (dedupTasks flat [])

/-! ## create_fingerprint (teamwork_client.py lines 19-41, 468-472)

`hashlib.sha256(base.encode()).hexdigest()[:16]` — SHA-256 (FIPS 180-4)
over the UTF-8 bytes of the identity string, first 16 hex characters. -/

/-- MetaFicha (teamwork_client.py lines 19-24). -/
structure MetaFicha where
  visita : Option String := none
  ticket : Option String := none
  ficha : Option String := none
  cliente : Option String := none
  deriving Repr, DecidableEq

/-- SessaoTrabalho (teamwork_client.py lines 28-35). -/
structure SessaoTrabalho where
  data : String
  hora_inicio : String
  hora_fim : String
  minutos : Int
  cobravel : Bool
  atividade : String
  deriving Repr, DecidableEq

/-- f-string interpolation of an Optional[str] (None prints as "None"). -/
def optRepr : Option String → String
  | some s => s
  | none => "None"

/-- The pre-hash identity string of create_fingerprint (line 471). -/
def fingerprintBase (meta : MetaFicha) (sessao : SessaoTrabalho)
    (task_id : Int) : String :=
  optRepr meta.ficha ++ "|" ++ optRepr meta.ticket ++ "|" ++ sessao.data ++
    "|" ++ sessao.hora_inicio ++ "|" ++ sessao.hora_fim ++ "|" ++
    toString task_id

/-- UTF-8 encoding of one character (str.encode()). -/
def utf8Char (c : Char) : List Nat :=
  let n := c.toNat
  if n < 128 then [n]
  else if n < 2048 then [192 + n / 64, 128 + n % 64]
  else if n < 65536 then
    [224 + n / 4096, 128 + n / 64 % 64, 128 + n % 64]
  else
    [240 + n / 262144, 128 + n / 4096 % 64, 128 + n / 64 % 64, 128 + n % 64]

/-- UTF-8 bytes of a string. -/
def strBytes (s : String) : List Nat := s.data.flatMap utf8Char

/-- Truncate to 32 bits. -/
def w32 (x : Nat) : Nat := x % 4294967296

/-- 32-bit rotate right. -/
def rotr (n x : Nat) : Nat := w32 (x / 2 ^ n + x % 2 ^ n * 2 ^ (32 - n))

/-- The SHA-256 round constants (FIPS 180-4, written in decimal). -/
def shaK : List Nat :=
  [1116352408, 1899447441, 3049323471, 3921009573, 961987163, 1508970993,
   2453635748, 2870763221, 3624381080, 310598401, 607225278, 1426881987,
   1925078388, 2162078206, 2614888103, 3248222580, 3835390401, 4022224774,
   264347078, 604807628, 770255983, 1249150122, 1555081692, 1996064986,
   2554220882, 2821834349, 2952996808, 3210313671, 3336571891, 3584528711,
   113926993, 338241895, 666307205, 773529912, 1294757372, 1396182291,
   1695183700, 1986661051, 2177026350, 2456956037, 2730485921, 2820302411,
   3259730800, 3345764771, 3516065817, 3600352804, 4094571909, 275423344,
   430227734, 506948616, 659060556, 883997877, 958139571, 1322822218,
   1537002063, 1747873779, 1955562222, 2024104815, 2227730452, 2361852424,
   2428436474, 2756734187, 3204031479, 3329325298]

/-- The eight 32-bit working/hash values. -/
structure Sha8 where
  a : Nat
  b : Nat
  c : Nat
  d : Nat
  e : Nat
  f : Nat
  g : Nat
  hh : Nat
  deriving Repr, DecidableEq

/-- SHA-256 initial hash value (decimal). -/
def shaH0 : Sha8 :=
  ⟨1779033703, 3144134277, 1013904242, 2773480762,
   1359893119, 2600822924, 528734635, 1541459225⟩

/-- Big-endian 8-byte length field. -/
def lenBytes8 (bitlen : Nat) : List Nat :=
  [bitlen / 2 ^ 56 % 256, bitlen / 2 ^ 48 % 256, bitlen / 2 ^ 40 % 256,
   bitlen / 2 ^ 32 % 256, bitlen / 2 ^ 24 % 256, bitlen / 2 ^ 16 % 256,
   bitlen / 2 ^ 8 % 256, bitlen % 256]

/-- SHA-256 message padding: 0x80, zeros to 56 mod 64, 64-bit bit length. -/
def padMsg (msg : List Nat) : List Nat :=
  msg ++ [128] ++ List.replicate ((64 + 55 - msg.length % 64) % 64) 0 ++
    lenBytes8 (8 * msg.length)

/-- Split into 64-byte chunks (fuel-driven). -/
def chunksAux : Nat → List Nat → List (List Nat)
  | 0, _ => []
  | f + 1, l => if l.isEmpty then [] else l.take 64 :: chunksAux f (l.drop 64)

/-- The sixteen big-endian 32-bit words of one chunk. -/
def wordsOfChunk (c : List Nat) : List Nat :=
  (List.range 16).map fun i =>
    c.getD (4 * i) 0 * 2 ^ 24 + c.getD (4 * i + 1) 0 * 2 ^ 16 +
      c.getD (4 * i + 2) 0 * 2 ^ 8 + c.getD (4 * i + 3) 0

/-- Message-schedule extension from 16 to 64 words. -/
def extendW : Nat → List Nat → List Nat
  | 0, w => w
  | f + 1, w =>
      let i := w.length
      let x := w.getD (i - 15) 0
      let y := w.getD (i - 2) 0
      let s0 := rotr 7 x ^^^ rotr 18 x ^^^ x / 2 ^ 3
      let s1 := rotr 17 y ^^^ rotr 19 y ^^^ y / 2 ^ 10
      extendW f (w ++ [w32 (w.getD (i - 16) 0 + s0 + w.getD (i - 7) 0 + s1)])

/-- One compression round. -/
def compressStep (st : Sha8) (kw : Nat × Nat) : Sha8 :=
  let s1 := rotr 6 st.e ^^^ rotr 11 st.e ^^^ rotr 25 st.e
  let ch := (st.e &&& st.f) ^^^ ((st.e ^^^ 4294967295) &&& st.g)
  let temp1 := w32 (st.hh + s1 + ch + kw.1 + kw.2)
  let s0 := rotr 2 st.a ^^^ rotr 13 st.a ^^^ rotr 22 st.a
  let maj := (st.a &&& st.b) ^^^ (st.a &&& st.c) ^^^ (st.b &&& st.c)
  let temp2 := w32 (s0 + maj)
  ⟨w32 (temp1 + temp2), st.a, st.b, st.c, w32 (st.d + temp1), st.e, st.f, st.g⟩

/-- Process one 64-byte chunk. -/
def processChunk (H : Sha8) (chunk : List Nat) : Sha8 :=
  let w := extendW 48 (wordsOfChunk chunk)
  let st := (shaK.zip w).foldl compressStep H
  ⟨w32 (H.a + st.a), w32 (H.b + st.b), w32 (H.c + st.c), w32 (H.d + st.d),
   w32 (H.e + st.e), w32 (H.f + st.f), w32 (H.g + st.g), w32 (H.hh + st.hh)⟩

/-- SHA-256 of a byte list, as the eight final hash words. -/
def sha256Words (msg : List Nat) : Sha8 :=
  let padded := padMsg msg
  (chunksAux padded.length padded).foldl processChunk shaH0

/-- The lowercase hex digit for n < 16 ('0'-'9' then 'a'-'f'). -/
def hexDigit (n : Nat) : Char :=
  if n < 10 then Char.ofNat (48 + n) else Char.ofNat (87 + n)

/-- Eight lowercase hex chars of a 32-bit value (defined through the
32-bit residue so that it visibly depends on it alone). -/
def toHex8v (v : Nat) : List Char :=
  [hexDigit (v / 2 ^ 28 % 16), hexDigit (v / 2 ^ 24 % 16),
   hexDigit (v / 2 ^ 20 % 16), hexDigit (v / 2 ^ 16 % 16),
   hexDigit (v / 2 ^ 12 % 16), hexDigit (v / 2 ^ 8 % 16),
   hexDigit (v / 2 ^ 4 % 16), hexDigit (v % 16)]

/-- Hex rendering of a hash word. -/
def toHex8 (w : Nat) : List Char := toHex8v (w32 w)

/-- hashlib.sha256(...).hexdigest(): 64 lowercase hex characters. -/
def sha256hexdigest (msg : List Nat) : String :=
  let W := sha256Words msg
  String.mk (toHex8 W.a ++ toHex8 W.b ++ toHex8 W.c ++ toHex8 W.d ++
             toHex8 W.e ++ toHex8 W.f ++ toHex8 W.g ++ toHex8 W.hh)

/-- `create_fingerprint` (teamwork_client.py lines 468-472). -/
def create_fingerprint (meta : MetaFicha) (sessao : SessaoTrabalho)
    (task_id : Int) : String :=
  String.mk ((sha256hexdigest (strBytes (fingerprintBase meta sessao task_id))).data.take 16)

/-! ## Statement helpers: named values used by the theorems below -/

/-- Day/month zero-padding at list level (what pyZfill 2 does to a 1-2
digit field). -/
def zf2l (l : List Char) : List Char := if l.length = 1 then '0' :: l else l

/-- Year expansion at list level (the "20" prefix for 2-digit years). -/
def expandY (l : List Char) : List Char :=
  if l.length = 2 then '2' :: '0' :: l else l

/-- The accepted date separators. -/
def sepChars : List Char := ['/', '-', '.']

/-- The sample list carried by an aggregated post error ([] otherwise). -/
def samplesOf : PostOutcome → List Tentativa
  | .errAgg s => s
  | _ => []

/-- A concrete record for exercising the poster: valid date, truthy task
id, so all 3 endpoints and 24 combinations are attempted. -/
def regCE : RegistroAtividade :=
  { id := "r1", data := "05/01/2024", executor := "Maria Silva",
    hr_inicio := "08:00:00", hr_fim := "12:00:00",
    descricao := "Atividade executada.", total_hrs := "04:00:00",
    faturavel := true, tarefa_id := "777" }

/-- An oracle on which every attempt fails with HTTP 400. -/
def oracle400 : String → Payload → SendResult := fun _ _ => .resp 400 "err"

/-- The 22nd attempt (3rd most recent) of regCE against oracle400:
global endpoint, camel payload with decimal hours and time. -/
def tupCE22 : Tentativa :=
  ⟨"https://viasoft.teamwork.com/time_entries.json", .code 400,
   [("date", .str "20240105"), ("description", .str "Atividade executada."),
    ("isBillable", .bool true), ("time", .str "08:00"),
    ("hours", .str "4.00"), ("taskId", .int 777)], "err"⟩

/-- The 23rd attempt: global endpoint, kebab payload without time. -/
def tupCE23 : Tentativa :=
  ⟨"https://viasoft.teamwork.com/time_entries.json", .code 400,
   [("date", .str "20240105"), ("description", .str "Atividade executada."),
    ("isbillable", .int 1), ("hours", .int 4), ("minutes", .int 0),
    ("task-id", .int 777)], "err"⟩

/-- The 24th and most recent attempt: global endpoint, camel payload
without time. -/
def tupCE24 : Tentativa :=
  ⟨"https://viasoft.teamwork.com/time_entries.json", .code 400,
   [("date", .str "20240105"), ("description", .str "Atividade executada."),
    ("isBillable", .bool true), ("hours", .int 4), ("minutes", .int 0),
    ("taskId", .int 777)], "err"⟩

/-- The Strategy A sample line of the spec. -/
def mariaLine : String :=
  "05/01/2024  1234 - Maria Silva  08:00:00  12:00:00  04:00:00  Sim"

/-- A line only the flexible Strategy B matches (no numeric-coded
executor, no Sim/Não marker, but date plus three full times). -/
def flexLine : String := "05/01/2024 x 08:00:00 y 12:00:00 z 04:00:00"

/-- A line only the manual Strategy C matches (only two time tokens, so
the flexible pattern fails and the total is computed from the range). -/
def manualLine : String := "05/01/2024 08:00:00 12:00:00"

/-- A parent task tagged "billable" with an untagged child subtask. -/
def parentChildItems : List TWItem :=
  [.node (some "Alpha") none none (some 11) none none ["billable"]
     [.node (some "Beta") none none (some 22) none none [] []]]

/-! ## Supporting lemmas -/

theorem isEmpty_false_of_ne {α : Type} {l : List α} (h : l ≠ []) :
    l.isEmpty = false := by
  cases l with
  | nil => exact absurd rfl h
  | cons a t => rfl

theorem isEmpty_true_of_eq {α : Type} {l : List α} (h : l = []) :
    l.isEmpty = true := by
  subst h
  rfl

theorem dropWhile_id_of_false {p : Char → Bool} :
    ∀ l : List Char, (∀ c ∈ l, p c = false) → List.dropWhile p l = l := by
  intro l h
  cases l with
  | nil => rfl
  | cons a t => simp [List.dropWhile, h a (by simp)]

theorem pyStripList_id (l : List Char) (h : ∀ c ∈ l, pyIsSpace c = false) :
    pyStripList l = l := by
  unfold pyStripList
  rw [dropWhile_id_of_false l h,
      dropWhile_id_of_false l.reverse (fun c hc => h c (List.mem_reverse.mp hc)),
      List.reverse_reverse]

theorem digit_ne {c x : Char} (h : c.isDigit = true) (hx : x.isDigit = false) :
    c ≠ x := by
  intro he
  subst he
  rw [h] at hx
  cases hx

theorem digit_not_space {c : Char} (h : c.isDigit = true) :
    pyIsSpace c = false := by
  simp only [pyIsSpace, Bool.or_eq_false_iff, decide_eq_false_iff_not]
  exact ⟨⟨⟨⟨⟨digit_ne h (by decide), digit_ne h (by decide)⟩,
    digit_ne h (by decide)⟩, digit_ne h (by decide)⟩,
    digit_ne h (by decide)⟩, digit_ne h (by decide)⟩

theorem sep_not_space {c : Char} (h : c ∈ sepChars) : pyIsSpace c = false := by
  simp only [sepChars, List.mem_cons, List.not_mem_nil, or_false] at h
  rcases h with h | h | h <;> subst h <;> decide

theorem map_id_on {f : Char → Char} :
    ∀ l : List Char, (∀ c ∈ l, f c = c) → l.map f = l := by
  intro l h
  induction l with
  | nil => rfl
  | cons a t ih =>
      simp only [List.map_cons, h a (by simp)]
      rw [ih (fun c hc => h c (by simp [hc]))]

theorem digit_replace_fix {c : Char} (h : c.isDigit = true) :
    (if (if c = '-' then '/' else c) = '.' then '/'
     else if c = '-' then '/' else c) = c := by
  have hne1 : c ≠ '-' := digit_ne h (by decide)
  have hne2 : c ≠ '.' := digit_ne h (by decide)
  simp [hne1, hne2]

theorem split_append_sep {sep : Char} :
    ∀ (A R : List Char), (∀ c ∈ A, c ≠ sep) →
      pySplitChar sep (A ++ sep :: R) = A :: pySplitChar sep R := by
  intro A
  induction A with
  | nil => intro R _; simp [pySplitChar]
  | cons a A ih =>
      intro R h
      have ha : a ≠ sep := h a (by simp)
      simp only [List.cons_append, pySplitChar, if_neg ha, List.append_eq]
      rw [ih R (fun c hc => h c (by simp [hc]))]

theorem split_no_sep {sep : Char} :
    ∀ (C : List Char), (∀ c ∈ C, c ≠ sep) → pySplitChar sep C = [C] := by
  intro C
  induction C with
  | nil => intro _; rfl
  | cons a C ih =>
      intro h
      have ha : a ≠ sep := h a (by simp)
      simp only [pySplitChar, if_neg ha]
      rw [ih (fun c hc => h c (by simp [hc]))]

theorem digit_ne_slash {c : Char} (h : c.isDigit = true) : c ≠ '/' :=
  digit_ne h (by decide)

theorem pyZfill_digits (l : List Char) (hne : l ≠ [])
    (hd : ∀ c ∈ l, c.isDigit = true) (hlen : l.length ≤ 2) :
    pyZfill 2 (String.mk l) = String.mk (zf2l l) := by
  match l, hne with
  | [a], _ =>
      have ha : a.isDigit = true := hd a (by simp)
      have hp : a ≠ '+' := digit_ne ha (by decide)
      have hm : a ≠ '-' := digit_ne ha (by decide)
      simp [pyZfill, zf2l, hp, hm]
  | [a, b], _ =>
      simp [pyZfill, zf2l]
  | a :: b :: c :: t, _ =>
      exfalso
      simp at hlen

theorem mk_append (a b : List Char) :
    String.mk a ++ String.mk b = String.mk (a ++ b) := rfl

theorem sep_replace {s : Char} (hs : s ∈ sepChars) :
    (if (if s = '-' then '/' else s) = '.' then '/'
     else if s = '-' then '/' else s) = '/' := by
  simp only [sepChars, List.mem_cons, List.not_mem_nil, or_false] at hs
  rcases hs with h | h | h <;> subst h <;> decide

theorem clean_wellformed
    (DS MS YS : List Char) (s1 s2 : Char)
    (hDS : ∀ c ∈ DS, c.isDigit = true) (hMS : ∀ c ∈ MS, c.isDigit = true)
    (hYS : ∀ c ∈ YS, c.isDigit = true)
    (hs1 : s1 ∈ sepChars) (hs2 : s2 ∈ sepChars) :
    pyReplaceChar '.' '/'
        (pyReplaceChar '-' '/'
          (pyStrip (String.mk (DS ++ (s1 :: (MS ++ (s2 :: YS))))))) =
      String.mk (DS ++ ('/' :: (MS ++ ('/' :: YS)))) := by
  have hnos : ∀ c ∈ DS ++ (s1 :: (MS ++ (s2 :: YS))), pyIsSpace c = false := by
    intro c hc
    rcases List.mem_append.mp hc with h | h
    · exact digit_not_space (hDS c h)
    · rcases List.mem_cons.mp h with h | h
      · exact h ▸ sep_not_space hs1
      · rcases List.mem_append.mp h with h | h
        · exact digit_not_space (hMS c h)
        · rcases List.mem_cons.mp h with h | h
          · exact h ▸ sep_not_space hs2
          · exact digit_not_space (hYS c h)
  have hstrip : pyStrip (String.mk (DS ++ (s1 :: (MS ++ (s2 :: YS))))) =
      String.mk (DS ++ (s1 :: (MS ++ (s2 :: YS)))) := by
    show String.mk (pyStripList _) = _
    rw [pyStripList_id _ hnos]
  rw [hstrip]
  show String.mk _ = _
  congr 1
  simp only [pyReplaceChar, List.map_map, Function.comp_def]
  rw [List.map_append, List.map_cons, List.map_append, List.map_cons]
  rw [map_id_on DS (fun c hc => digit_replace_fix (hDS c hc)),
      map_id_on MS (fun c hc => digit_replace_fix (hMS c hc)),
      map_id_on YS (fun c hc => digit_replace_fix (hYS c hc)),
      sep_replace hs1, sep_replace hs2]

theorem normalizar_data_wellformed
    (DS MS YS : List Char) (s1 s2 : Char)
    (hDS : ∀ c ∈ DS, c.isDigit = true) (hMS : ∀ c ∈ MS, c.isDigit = true)
    (hYS : ∀ c ∈ YS, c.isDigit = true)
    (hs1 : s1 ∈ sepChars) (hs2 : s2 ∈ sepChars)
    (hDSne : DS ≠ []) (hDSlen : DS.length ≤ 2)
    (hMSne : MS ≠ []) (hMSlen : MS.length ≤ 2)
    (_hYSlen : YS.length = 2 ∨ YS.length = 4) :
    normalizar_data (String.mk (DS ++ (s1 :: (MS ++ (s2 :: YS))))) =
      String.mk (zf2l DS ++ ('/' :: (zf2l MS ++ ('/' :: expandY YS)))) := by
  unfold normalizar_data
  rw [clean_wellformed DS MS YS s1 s2 hDS hMS hYS hs1 hs2]
  show (match pySplitChar '/' (DS ++ ('/' :: (MS ++ ('/' :: YS)))) with
        | [dia, mes, ano] =>
            let ano2 := if ano.length = 2 then '2' :: '0' :: ano else ano
            pyZfill 2 (String.mk dia) ++ "/" ++ pyZfill 2 (String.mk mes) ++ "/" ++
              String.mk ano2
        | _ => String.mk (DS ++ (s1 :: (MS ++ (s2 :: YS))))) = _
  rw [split_append_sep DS (MS ++ ('/' :: YS))
        (fun c hc => digit_ne_slash (hDS c hc)),
      split_append_sep MS YS (fun c hc => digit_ne_slash (hMS c hc)),
      split_no_sep YS (fun c hc => digit_ne_slash (hYS c hc))]
  show pyZfill 2 (String.mk DS) ++ "/" ++ pyZfill 2 (String.mk MS) ++ "/" ++
      String.mk (if YS.length = 2 then '2' :: '0' :: YS else YS) = _
  rw [pyZfill_digits DS hDSne hDS hDSlen, pyZfill_digits MS hMSne hMS hMSlen]
  show String.mk (zf2l DS) ++ String.mk ['/'] ++ String.mk (zf2l MS) ++
      String.mk ['/'] ++ String.mk (expandY YS) = _
  rw [mk_append, mk_append, mk_append, mk_append]
  congr 1
  simp

theorem zf2l_digits {l : List Char} (h : ∀ c ∈ l, c.isDigit = true) :
    ∀ c ∈ zf2l l, c.isDigit = true := by
  unfold zf2l
  split
  · intro c hc
    rcases List.mem_cons.mp hc with hc | hc
    · subst hc; decide
    · exact h c hc
  · exact h

theorem zf2l_len {l : List Char} (h1 : l ≠ []) (h2 : l.length ≤ 2) :
    (zf2l l).length = 2 := by
  unfold zf2l
  have h0 : l.length ≠ 0 := fun he => h1 (List.length_eq_zero.mp he)
  split
  · next h => simp [List.length_cons, h]
  · next h => omega

theorem zf2l_ne {l : List Char} (h1 : l ≠ []) : zf2l l ≠ [] := by
  unfold zf2l
  split
  · simp
  · exact h1

theorem expandY_digits {l : List Char} (h : ∀ c ∈ l, c.isDigit = true) :
    ∀ c ∈ expandY l, c.isDigit = true := by
  unfold expandY
  split
  · intro c hc
    rcases List.mem_cons.mp hc with hc | hc
    · subst hc; decide
    rcases List.mem_cons.mp hc with hc | hc
    · subst hc; decide
    · exact h c hc
  · exact h

theorem expandY_len {l : List Char} (h : l.length = 2 ∨ l.length = 4) :
    (expandY l).length = 4 := by
  unfold expandY
  rcases h with h | h <;> simp [h]

theorem zf2l_stable {l : List Char} (h : l.length = 2) : zf2l l = l := by
  unfold zf2l
  rw [h]
  simp

theorem expandY_stable {l : List Char} (h : l.length = 4) : expandY l = l := by
  unfold expandY
  rw [h]
  simp

theorem findHeaderAux_none (linhas : List String) :
    ∀ (f start : Nat),
      (∀ i, start ≤ i → i < start + f →
        reTest headerRE (pyStrip (linhas.getD i "")) = false) →
      findHeaderAux linhas f start = none := by
  intro f
  induction f with
  | zero => intro start _; rfl
  | succ f ih =>
      intro start h
      have hc := h start (le_refl start) (by omega)
      simp only [findHeaderAux, hc]
      simp only [Bool.false_eq_true, if_false]
      exact ih (start + 1) (fun i h1 h2 => h i (by omega) (by omega))

theorem findHeaderAux_some (linhas : List String) :
    ∀ (f start i : Nat), findHeaderAux linhas f start = some i →
      start ≤ i ∧ i < start + f ∧
        reTest headerRE (pyStrip (linhas.getD i "")) = true := by
  intro f
  induction f with
  | zero => intro start i h; cases h
  | succ f ih =>
      intro start i h
      unfold findHeaderAux at h
      by_cases hc : reTest headerRE (pyStrip (linhas.getD start "")) = true
      · rw [if_pos hc] at h
        obtain rfl : start = i := Option.some.inj h
        exact ⟨le_refl start, by omega, hc⟩
      · rw [if_neg hc] at h
        obtain ⟨h1, h2, h3⟩ := ih (start + 1) i h
        exact ⟨by omega, by omega, h3⟩

theorem postLoop_all_fail (send : String → Payload → SendResult) :
    ∀ (combos : List (String × Payload)) (erros : List Tentativa),
      (∀ c ∈ combos, isFailure (send c.1 c.2)) →
      postLoop send combos erros =
        .errAgg ((erros ++ attemptsAllFail send combos).drop
          ((erros ++ attemptsAllFail send combos).length - 3)) := by
  intro combos
  induction combos with
  | nil => intro erros _; simp [postLoop, attemptsAllFail]
  | cons c rest ih =>
      intro erros h
      obtain ⟨ep, te⟩ := c
      have hc : isFailure (send ep te) := h (ep, te) (by simp)
      have hrest : ∀ c ∈ rest, isFailure (send c.1 c.2) :=
        fun c hc2 => h c (by simp [hc2])
      unfold postLoop
      cases hs : send ep te with
      | resp status text =>
          rw [hs] at hc
          have h400 : ¬ status < 400 := by
            have : 400 ≤ status := hc
            omega
          dsimp only
          rw [if_neg h400]
          have hX : (erros ++ [(⟨ep, .code status, te, take300 text⟩ : Tentativa)]) ++
              attemptsAllFail send rest =
              erros ++ attemptsAllFail send ((ep, te) :: rest) := by
            simp [attemptsAllFail, hs]
          exact (ih _ hrest).trans (by rw [hX])
      | exc msg =>
          dsimp only
          have hX : (erros ++ [(⟨ep, .exc, te, take300 msg⟩ : Tentativa)]) ++
              attemptsAllFail send rest =
              erros ++ attemptsAllFail send ((ep, te) :: rest) := by
            simp [attemptsAllFail, hs]
          exact (ih _ hrest).trans (by rw [hX])

theorem combosOf_length (reg : RegistroAtividade) (pid dn di : String) :
    (combosOf reg pid dn di).length = 8 * (endpointsOf reg pid).length := by
  unfold combosOf
  induction endpointsOf reg pid with
  | nil => rfl
  | cons ep eps ih =>
      simp only [List.flatMap_cons, List.length_append, List.length_map, ih]
      simp [payloadsOf]
      ring

theorem endpointsOf_no_task (reg : RegistroAtividade) (pid : String)
    (h : optTruthy (taskIdI reg) = false) :
    endpointsOf reg pid =
      [twBase ++ "/projects/" ++ projIdStr pid ++ "/time_entries.json",
       twBase ++ "/time_entries.json"] := by
  simp [endpointsOf, h]

/-! ## Claim theorems -/

/-- C5 counterexample: the claim says malformed date strings are returned
unchanged, but the three-field string "1/2/345" (malformed: 3-digit
year, neither 2 nor 4 digits) is still zero-padded and returned changed
as "01/02/345". -/
theorem normalizar_data_malformed_changed :
    normalizar_data "1/2/345" = "01/02/345" ∧
      normalizar_data "1/2/345" ≠ "1/2/345" := by
  constructor
  · decide
  · decide

/-- C5 (amended): for every date string with 1-2 digit day, 1-2 digit
month and 2- or 4-digit year joined by separators /, - or ., normalizar_data
returns the zero-padded dd/mm/yyyy form (2-digit years prefixed by "20")
and is idempotent there; and every string that does not split into
exactly three fields (after strip and separator replacement) is returned
unchanged.  (The original claim asserted that all malformed date strings
come back unchanged; a malformed string with three fields is still padded
and expanded, as the counterexample shows, so the unchanged guarantee
holds only for non-three-field inputs.  The function is total, hence
"never throws".) -/
theorem normalizar_data_props :
    (∀ (DS MS YS : List Char) (s1 s2 : Char),
        (∀ c ∈ DS, c.isDigit = true) → (∀ c ∈ MS, c.isDigit = true) →
        (∀ c ∈ YS, c.isDigit = true) →
        s1 ∈ sepChars → s2 ∈ sepChars →
        DS ≠ [] → DS.length ≤ 2 → MS ≠ [] → MS.length ≤ 2 →
        (YS.length = 2 ∨ YS.length = 4) →
        normalizar_data (String.mk (DS ++ (s1 :: (MS ++ (s2 :: YS))))) =
          String.mk (zf2l DS ++ ('/' :: (zf2l MS ++ ('/' :: expandY YS)))) ∧
        normalizar_data
            (normalizar_data (String.mk (DS ++ (s1 :: (MS ++ (s2 :: YS)))))) =
          normalizar_data (String.mk (DS ++ (s1 :: (MS ++ (s2 :: YS)))))) ∧
    (∀ s : String,
        (pySplitChar '/' (pyReplaceChar '.' '/' (pyReplaceChar '-' '/'
            (pyStrip s))).data).length ≠ 3 →
        normalizar_data s = s) := by
  constructor
  · intro DS MS YS s1 s2 hDS hMS hYS hs1 hs2 hDSne hDSlen hMSne hMSlen hYSlen
    have h1 := normalizar_data_wellformed DS MS YS s1 s2 hDS hMS hYS hs1 hs2
      hDSne hDSlen hMSne hMSlen hYSlen
    refine ⟨h1, ?_⟩
    rw [h1]
    have h2 := normalizar_data_wellformed (zf2l DS) (zf2l MS) (expandY YS)
      '/' '/' (zf2l_digits hDS) (zf2l_digits hMS) (expandY_digits hYS)
      (by decide) (by decide)
      (zf2l_ne hDSne) (by rw [zf2l_len hDSne hDSlen])
      (zf2l_ne hMSne) (by rw [zf2l_len hMSne hMSlen])
      (Or.inr (expandY_len hYSlen))
    rw [h2, zf2l_stable (zf2l_len hDSne hDSlen),
        zf2l_stable (zf2l_len hMSne hMSlen),
        expandY_stable (expandY_len hYSlen)]
  · intro s hlen
    unfold normalizar_data
    show (match pySplitChar '/' ((pyReplaceChar '.' '/' (pyReplaceChar '-' '/'
            (pyStrip s))).data) with
          | [dia, mes, ano] =>
              let ano2 := if ano.length = 2 then '2' :: '0' :: ano else ano
              pyZfill 2 (String.mk dia) ++ "/" ++ pyZfill 2 (String.mk mes) ++
                "/" ++ String.mk ano2
          | _ => s) = s
    split
    · next dia mes ano heq => exact absurd (by rw [heq]; rfl) hlen
    · rfl

/-- C5 witness: the amended theorem applied at "5-6.24" (well-formed,
mixed separators, 2-digit year) and at "1/2" (two fields, unchanged). -/
theorem normalizar_data_props_witness :
    normalizar_data "5-6.24" = "05/06/2024" ∧
      normalizar_data (normalizar_data "5-6.24") = normalizar_data "5-6.24" ∧
      normalizar_data "1/2" = "1/2" := by
  have h := normalizar_data_props
  have h1 := h.1 ['5'] ['6'] ['2', '4'] '-' '.'
    (by decide) (by decide) (by decide) (by decide) (by decide)
    (by decide) (by decide) (by decide) (by decide) (by decide)
  exact ⟨h1.1, h1.2, h.2 "1/2" (by decide)⟩

/-- C3: on the text consisting of the exact line
"05/01/2024  1234 - Maria Silva  08:00:00  12:00:00  04:00:00  Sim",
Strategy A (and hence the whole extractor) produces exactly one record
with date 05/01/2024, executor "Maria Silva" (numeric code stripped),
start 08:00:00, end 12:00:00, total 04:00:00, billable true. -/
theorem strategyA_maria_silva_line :
    stratA (splitLines mariaLine) (fichaPref mariaLine) =
      [{ data := "05/01/2024", executor := "Maria Silva",
         hr_inicio := "08:00:00", hr_fim := "12:00:00",
         total_hrs := "04:00:00",
         descricao := "Atividade executada em 05/01/2024 por Maria Silva.",
         faturavel := true, tarefa_id := "", tarefa_nome := "" }] ∧
    extrair_registros_viasell mariaLine =
      [{ data := "05/01/2024", executor := "Maria Silva",
         hr_inicio := "08:00:00", hr_fim := "12:00:00",
         total_hrs := "04:00:00",
         descricao := "Atividade executada em 05/01/2024 por Maria Silva.",
         faturavel := true, tarefa_id := "", tarefa_nome := "" }] := by
  constructor
  · decide
  · decide

/-- C4: the three strategies are mutually exclusive at document level:
the extractor returns Strategy A's records whenever A yields any; Strategy
B's only when A yields none and B yields some; Strategy C's only when both
A and B yield none. -/
theorem strategies_mutually_exclusive (texto : String) :
    (stratA (splitLines texto) (fichaPref texto) ≠ [] →
       extrair_registros_viasell texto =
         stratA (splitLines texto) (fichaPref texto)) ∧
    (stratA (splitLines texto) (fichaPref texto) = [] →
       stratB (splitLines texto) (fichaPref texto) ≠ [] →
       extrair_registros_viasell texto =
         stratB (splitLines texto) (fichaPref texto)) ∧
    (stratA (splitLines texto) (fichaPref texto) = [] →
       stratB (splitLines texto) (fichaPref texto) = [] →
       extrair_registros_viasell texto =
         stratC (splitLines texto) (fichaPref texto)) := by
  refine ⟨fun hA => ?_, fun hA hB => ?_, fun hA hB => ?_⟩
  · simp [extrair_registros_viasell, isEmpty_false_of_ne hA]
  · simp [extrair_registros_viasell, isEmpty_true_of_eq hA,
          isEmpty_false_of_ne hB]
  · simp [extrair_registros_viasell, isEmpty_true_of_eq hA,
          isEmpty_true_of_eq hB]

/-- C4 witness: the exclusivity theorem applied to three concrete
documents, one per strategy. -/
theorem strategies_mutually_exclusive_witness :
    extrair_registros_viasell mariaLine =
        stratA (splitLines mariaLine) (fichaPref mariaLine) ∧
      extrair_registros_viasell flexLine =
        stratB (splitLines flexLine) (fichaPref flexLine) ∧
      extrair_registros_viasell manualLine =
        stratC (splitLines manualLine) (fichaPref manualLine) :=
  ⟨(strategies_mutually_exclusive mariaLine).1 (by decide),
   (strategies_mutually_exclusive flexLine).2.1 (by decide) (by decide),
   (strategies_mutually_exclusive manualLine).2.2 (by decide) (by decide)⟩

/-- C8: for a parent task tagged "billable" with an untagged child
subtask, filtering by tag "billable" with inheritance returns parent and
child (sorted by name); without inheritance only the parent; and the tag
comparison is case-insensitive (query "BILLABLE" behaves identically). -/
theorem tasks_by_tag_inheritance :
    tasksByTag parentChildItems "billable" true =
      [⟨"11", "Alpha", ["billable"], ""⟩,
       ⟨"22", "Beta", ["billable"], "11"⟩] ∧
    tasksByTag parentChildItems "billable" false =
      [⟨"11", "Alpha", ["billable"], ""⟩] ∧
    tasksByTag parentChildItems "BILLABLE" true =
      [⟨"11", "Alpha", ["billable"], ""⟩,
       ⟨"22", "Beta", ["billable"], "11"⟩] := by
  refine ⟨?_, ?_, ?_⟩ <;> decide

/-- C7: the description harvester only reacts to "Serviço Exec" header
lines inside the window [max(0, idx-2), min(len, idx+25)); when no line of
that window matches the header pattern it returns the empty string — the
synthesized fallback sentence is the caller's job, never produced here. -/
theorem buscar_descricao_window (linhas : List String) (idx : Nat) :
    ((∀ i, idx - 2 ≤ i → i < min linhas.length (idx + 25) →
        reTest headerRE (pyStrip (linhas.getD i "")) = false) →
      buscar_descricao_serv_exec linhas idx = "") ∧
    (buscar_descricao_serv_exec linhas idx ≠ "" →
      ∃ i, idx - 2 ≤ i ∧ i < min linhas.length (idx + 25) ∧
        reTest headerRE (pyStrip (linhas.getD i "")) = true) := by
  constructor
  · intro h
    unfold buscar_descricao_serv_exec
    dsimp only
    rw [findHeaderAux_none linhas (min linhas.length (idx + 25) - (idx - 2))
          (idx - 2) (fun i h1 h2 => h i h1 (by omega))]
  · intro hne
    cases hf : findHeaderAux linhas
        (min linhas.length (idx + 25) - (idx - 2)) (idx - 2) with
    | none =>
        exfalso
        apply hne
        unfold buscar_descricao_serv_exec
        dsimp only
        rw [hf]
    | some i =>
        obtain ⟨h1, h2, h3⟩ := findHeaderAux_some linhas _ _ _ hf
        exact ⟨i, h1, by omega, h3⟩

/-- C7 witness: the window theorem applied to an empty document (no
header anywhere, result "") and to a one-line document whose line 0 is a
header (nonempty harvest, header inside the window). -/
theorem buscar_descricao_window_witness :
    buscar_descricao_serv_exec [] 0 = "" ∧
    ∃ i, 0 - 2 ≤ i ∧
      i < min (["Serviço Exec: Troubleshooting"] : List String).length (0 + 25) ∧
      reTest headerRE
        (pyStrip ((["Serviço Exec: Troubleshooting"] : List String).getD i "")) =
        true :=
  ⟨(buscar_descricao_window [] 0).1
     (fun i _ h2 => absurd h2 (by simp)),
   (buscar_descricao_window ["Serviço Exec: Troubleshooting"] 0).2 (by decide)⟩

/-- C1 counterexample: with a valid record, a truthy task id (24
combinations) and every attempt answering HTTP 400, the raised error's
detail holds the 3 most recent attempts — but in chronological order,
most recent LAST: its head is the 22nd attempt and its last element the
24th, and that list differs from the most-recent-first ordering the claim
asserts. -/
theorem post_time_entry_detail_order_counterexample :
    samplesOf (post_time_entry_tw regCE "123" oracle400) =
        [tupCE22, tupCE23, tupCE24] ∧
      tupCE22 ≠ tupCE24 ∧
      [tupCE22, tupCE23, tupCE24] ≠ [tupCE24, tupCE23, tupCE22] := by
  refine ⟨by decide, by decide, by decide⟩

/-- C1 (amended): when the record date parses and every attempted
(endpoint x payload) combination fails, the poster raises exactly one
aggregated error whose detail is exactly the last 3 entries of the
chronological attempt log — the 3 most recently attempted (endpoint,
status, payload, truncated-body) tuples in attempt order, i.e. most
recent last (not first, as the original claim said). -/
theorem post_time_entry_all_fail_last_three
    (reg : RegistroAtividade) (project_id : String)
    (send : String → Payload → SendResult) (d m y : Nat)
    (hd : parseDMY reg.data = some (d, m, y))
    (hfail : ∀ c ∈ combosOf reg project_id (dateNum d m y) (dateISO d m y),
      isFailure (send c.1 c.2)) :
    post_time_entry_tw reg project_id send =
      .errAgg ((attemptsAllFail send
          (combosOf reg project_id (dateNum d m y) (dateISO d m y))).drop
        ((attemptsAllFail send
          (combosOf reg project_id (dateNum d m y) (dateISO d m y))).length - 3)) ∧
    ((attemptsAllFail send
        (combosOf reg project_id (dateNum d m y) (dateISO d m y))).drop
      ((attemptsAllFail send
        (combosOf reg project_id (dateNum d m y) (dateISO d m y))).length - 3)).length
      = 3 := by
  have hep : 2 ≤ (endpointsOf reg project_id).length := by
    unfold endpointsOf
    cases optTruthy (taskIdI reg) <;> simp
  have hcomb : 16 ≤
      (combosOf reg project_id (dateNum d m y) (dateISO d m y)).length := by
    rw [combosOf_length]
    omega
  have hatts : (attemptsAllFail send
      (combosOf reg project_id (dateNum d m y) (dateISO d m y))).length =
      (combosOf reg project_id (dateNum d m y) (dateISO d m y)).length :=
    List.length_map _ _
  constructor
  · unfold post_time_entry_tw
    rw [hd]
    have := postLoop_all_fail send
      (combosOf reg project_id (dateNum d m y) (dateISO d m y)) [] hfail
    simpa using this
  · rw [List.length_drop]
    omega

/-- C1 witness: the amended theorem applied to the concrete all-400
scenario; the detail has exactly 3 entries. -/
theorem post_time_entry_all_fail_last_three_witness :
    (samplesOf (post_time_entry_tw regCE "123" oracle400)).length = 3 := by
  obtain ⟨h1, h2⟩ := post_time_entry_all_fail_last_three regCE "123" oracle400
    5 1 2024 (by decide) (fun c _ => le_refl 400)
  rw [h1]
  exact h2

/-- C10: when the record's tarefa_id is not a truthy integer (empty,
non-digit, or "0"), the poster's combination list has exactly 16 entries
(8 payloads x project-scoped and global endpoints only — no task
endpoint), no payload sent carries a "task-id" or "taskId" field, and
every payload sent has its empty-string and None values stripped. -/
theorem post_no_task_variants (reg : RegistroAtividade)
    (project_id dn di : String)
    (h : optTruthy (taskIdI reg) = false) :
    (combosOf reg project_id dn di).length = 16 ∧
    ∀ c ∈ combosOf reg project_id dn di,
      (c.1 = twBase ++ "/projects/" ++ projIdStr project_id ++
          "/time_entries.json" ∨
       c.1 = twBase ++ "/time_entries.json") ∧
      "task-id" ∉ c.2.map Prod.fst ∧
      "taskId" ∉ c.2.map Prod.fst ∧
      ∀ kv ∈ c.2, kv.2 ≠ PVal.str "" ∧ kv.2 ≠ PVal.pynone := by
  constructor
  · rw [combosOf_length, endpointsOf_no_task reg project_id h]
    rfl
  · intro c hc
    obtain ⟨ep, hep, hc2⟩ := List.mem_flatMap.mp hc
    obtain ⟨pay, hpay, rfl⟩ := List.mem_map.mp hc2
    refine ⟨?_, ?_, ?_, ?_⟩
    · rw [endpointsOf_no_task reg project_id h] at hep
      simpa using hep
    · intro hmem
      have hsub : ("task-id" : String) ∈ pay.map Prod.fst :=
        (((List.filter_sublist pay).map Prod.fst).subset) hmem
      revert hsub
      cases hu : optTruthy (userIdI reg) <;>
        (simp only [payloadsOf, List.mem_cons, List.not_mem_nil,
           or_false] at hpay
         rcases hpay with rfl | rfl | rfl | rfl | rfl | rfl | rfl | rfl <;>
           simp [payloadKebab, payloadCamel, h, hu])
    · intro hmem
      have hsub : ("taskId" : String) ∈ pay.map Prod.fst :=
        (((List.filter_sublist pay).map Prod.fst).subset) hmem
      revert hsub
      cases hu : optTruthy (userIdI reg) <;>
        (simp only [payloadsOf, List.mem_cons, List.not_mem_nil,
           or_false] at hpay
         rcases hpay with rfl | rfl | rfl | rfl | rfl | rfl | rfl | rfl <;>
           simp [payloadKebab, payloadCamel, h, hu])
    · intro kv hkv
      have hp := List.of_mem_filter hkv
      simp only [Bool.not_eq_true', Bool.or_eq_false_iff,
        decide_eq_false_iff_not] at hp
      exact hp

/-- C10 witness: the theorem applied to a record with tarefa_id "0"
(digit string parsing to the non-positive 0). -/
theorem post_no_task_variants_witness :
    (combosOf { regCE with tarefa_id := "0" } "123" "20240105"
        "2024-01-05").length = 16 :=
  (post_no_task_variants { regCE with tarefa_id := "0" } "123" "20240105"
    "2024-01-05" (by decide)).1

/-- C2: for every parsed total-duration H:MM:SS string, the (hours,
minutes) conversion rounds the total seconds to the nearest minute (the
rounded total is within 30 seconds of the exact total; exact ties go to
the even minute as Python's round does); and whenever the rounded result
is exactly (0, 0), every payload the poster builds that carries a
"minutes" field carries the value 1, never 0. -/
theorem hms_rounding_minute_floor
    (hms : String) (h m s : Nat) (hp : parseHMS hms = some (h, m, s)) :
    ((60 * (60 * (hms_to_h_m hms).1 + (hms_to_h_m hms).2) : Int) -
        (3600 * h + 60 * m + s) ≤ 30 ∧
      (3600 * h + 60 * m + s : Int) -
        60 * (60 * (hms_to_h_m hms).1 + (hms_to_h_m hms).2) ≤ 30) ∧
    (∀ (reg : RegistroAtividade) (pid dn di : String),
      reg.total_hrs = hms → hms_to_h_m hms = (0, 0) →
      ∀ c ∈ combosOf reg pid dn di, ∀ v, ("minutes", v) ∈ c.2 →
        v = PVal.int 1) := by
  have hne : hms ≠ "" := by
    intro he
    rw [he, show parseHMS "" = none from rfl] at hp
    cases hp
  have he : hms_to_h_m hms =
      (totalMinRound h m s / 60, totalMinRound h m s % 60) := by
    unfold hms_to_h_m
    rw [if_neg hne, hp]
  constructor
  · rw [he]
    dsimp only
    unfold totalMinRound
    dsimp only
    split_ifs <;> constructor <;> push_cast <;> omega
  · intro reg pid dn di htot h00 c hc v hv
    obtain ⟨ep, hep, hc2⟩ := List.mem_flatMap.mp hc
    obtain ⟨pay, hpay, rfl⟩ := List.mem_map.mp hc2
    have hv2 : ("minutes", v) ∈ pay := List.mem_of_mem_filter hv
    have h1 : hhmmOf reg = (0, 1) := by
      simp [hhmmOf, htot, h00]
    cases ht : optTruthy (taskIdI reg) <;>
      cases hu : optTruthy (userIdI reg) <;>
      (simp only [payloadsOf, List.mem_cons, List.not_mem_nil,
         or_false] at hpay
       rcases hpay with rfl | rfl | rfl | rfl | rfl | rfl | rfl | rfl <;>
         simp [payloadKebab, payloadCamel, h1, ht, hu] at hv2 <;>
         simp [hv2])

/-- C2 witness: duration "00:00:10" rounds to zero minutes total (within
30 seconds of the 10-second exact value) and the first posted payload's
"minutes" field is forced to 1. -/
theorem hms_rounding_minute_floor_witness :
    ((60 * (60 * (hms_to_h_m "00:00:10").1 + (hms_to_h_m "00:00:10").2) : Int) -
        (3600 * 0 + 60 * 0 + 10) ≤ 30 ∧
      (3600 * 0 + 60 * 0 + 10 : Int) -
        60 * (60 * (hms_to_h_m "00:00:10").1 + (hms_to_h_m "00:00:10").2) ≤ 30) ∧
    PVal.int 1 = PVal.int 1 := by
  obtain ⟨h1, h2⟩ := hms_rounding_minute_floor "00:00:10" 0 0 10 (by decide)
  refine ⟨h1, ?_⟩
  have := h2 { regCE with total_hrs := "00:00:10" } "123" "20240105"
    "2024-01-05" rfl (by decide)
    ((combosOf { regCE with total_hrs := "00:00:10" } "123" "20240105"
        "2024-01-05").getD 0 ("", []))
    (by decide) (PVal.int 1) (by decide)
  rw [this]

/-- C6: for every valid H:MM:SS duration (minutes and seconds below 60),
the poster's two numeric derivations agree to within one minute: writing
C for the centihour count behind the 2-decimal string of _hms_to_decimal
(C/100 hours, exhibited explicitly in the first conjunct) and T for the
total minutes 60*hours + minutes of _hms_to_h_m, T differs from
round(decimal_hours * 60) = (6*C+5)/10 by at most 1 (the rounding of the
decimal to hundredths of an hour loses up to 18 seconds, so exact
equality cannot be promised — e.g. 00:00:30 gives T = 0 but decimal
"0.01", which rounds back to 1 minute). -/
theorem hms_decimal_minutes_consistent
    (hms : String) (h m s : Nat) (hp : parseHMS hms = some (h, m, s))
    (_hm60 : m < 60) (hs60 : s < 60) :
    hms_to_decimal hms =
      toString ((3600 * h + 60 * m + s + 18) / 36 / 100) ++ "." ++
        pad2 ((3600 * h + 60 * m + s + 18) / 36 % 100) ∧
    60 * (hms_to_h_m hms).1 + (hms_to_h_m hms).2 ≤
      (6 * ((3600 * h + 60 * m + s + 18) / 36) + 5) / 10 + 1 ∧
    (6 * ((3600 * h + 60 * m + s + 18) / 36) + 5) / 10 ≤
      60 * (hms_to_h_m hms).1 + (hms_to_h_m hms).2 + 1 := by
  have hne : hms ≠ "" := by
    intro he
    rw [he, show parseHMS "" = none from rfl] at hp
    cases hp
  have he : hms_to_h_m hms =
      (totalMinRound h m s / 60, totalMinRound h m s % 60) := by
    unfold hms_to_h_m
    rw [if_neg hne, hp]
  refine ⟨?_, ?_, ?_⟩
  · unfold hms_to_decimal
    rw [if_neg hne, hp]
  · rw [he]
    dsimp only
    unfold totalMinRound
    dsimp only
    split_ifs <;> omega
  · rw [he]
    dsimp only
    unfold totalMinRound
    dsimp only
    split_ifs <;> omega

/-- C6 witness: the consistency theorem at "01:30:45" — the decimal
string is "1.51" (151 centihours) and the 91 total minutes are within one
of round(1.51 * 60) = 91. -/
theorem hms_decimal_minutes_consistent_witness :
    hms_to_decimal "01:30:45" =
        toString ((3600 * 1 + 60 * 30 + 45 + 18) / 36 / 100) ++ "." ++
          pad2 ((3600 * 1 + 60 * 30 + 45 + 18) / 36 % 100) ∧
      60 * (hms_to_h_m "01:30:45").1 + (hms_to_h_m "01:30:45").2 ≤
        (6 * ((3600 * 1 + 60 * 30 + 45 + 18) / 36) + 5) / 10 + 1 ∧
      (6 * ((3600 * 1 + 60 * 30 + 45 + 18) / 36) + 5) / 10 ≤
        60 * (hms_to_h_m "01:30:45").1 + (hms_to_h_m "01:30:45").2 + 1 :=
  hms_decimal_minutes_consistent "01:30:45" 1 30 45 (by decide) (by decide)
    (by decide)

end VxTrack
